import Mathlib

set_option maxRecDepth 10000

/-!
Verification development for the frappe_dwf IHE Departmental Workflow adapter.

The Python source is shallowly embedded: each handler becomes a pure Lean
function over an explicit `Store` state; `frappe.utils.now()` and
`frappe.generate_hash()` become explicit string parameters; `frappe.throw`
becomes a `thrown` result constructor; the site configuration secret becomes
an `Option String` parameter.  Bytes are `List Nat` (each entry < 256).
-/

/-! ## Python truthiness helpers

Python treats `None` and the empty string as falsy.  `Option String` models a
value that may be `None`; `otruthy` is the truth test applied by `if x:` and
`x or y`. -/

def otruthy : Option String → Bool
  | none => false
  | some s => s ≠ ""

/-- Python `a or b` on optional strings: `a` when truthy, else `b`. -/
def pyOr (a b : Option String) : Option String :=
  if otruthy a then a else b

/-- `headers.get(k)`: first association with key `k`, as the Python dict get. -/
def hget (headers : List (String × String)) (k : String) : Option String :=
  (headers.find? (fun p => p.1 == k)).map (fun p => p.2)

/-! ## SHA-256 and HMAC-SHA256 (model of `hashlib` / `hmac`)

The handlers call the Python standard library for HMAC-SHA256; the standard
algorithm (FIPS 180-4, RFC 2104) is implemented here over `Nat` bytes and
32-bit words reduced mod `2 ^ 32`. -/

def M32 : Nat := 4294967296

def add32 (a b : Nat) : Nat := (a + b) % M32

def rotr32 (x n : Nat) : Nat :=
  ((x >>> n) ||| (x <<< (32 - n))) % M32

def bigSigma0 (x : Nat) : Nat := (rotr32 x 2) ^^^ (rotr32 x 13) ^^^ (rotr32 x 22)
def bigSigma1 (x : Nat) : Nat := (rotr32 x 6) ^^^ (rotr32 x 11) ^^^ (rotr32 x 25)
def smallSigma0 (x : Nat) : Nat := (rotr32 x 7) ^^^ (rotr32 x 18) ^^^ (x >>> 3)
def smallSigma1 (x : Nat) : Nat := (rotr32 x 17) ^^^ (rotr32 x 19) ^^^ (x >>> 10)

def chFn (e f g : Nat) : Nat := (e &&& f) ^^^ ((e ^^^ 4294967295) &&& g)
def majFn (a b c : Nat) : Nat := (a &&& b) ^^^ (a &&& c) ^^^ (b &&& c)

def sha256K : Array Nat := List.toArray [
  1116352408, 1899447441, 3049323471, 3921009573, 961987163, 1508970993,
  2453635748, 2870763221, 3624381080, 310598401, 607225278, 1426881987,
  1925078388, 2162078206, 2614888103, 3248222580, 3835390401, 4022224774,
  264347078, 604807628, 770255983, 1249150122, 1555081692, 1996064986,
  2554220882, 2821834349, 2952996808, 3210313671, 3336571891, 3584528711,
  113926993, 338241895, 666307205, 773529912, 1294757372, 1396182291,
  1695183700, 1986661051, 2177026350, 2456956037, 2730485921, 2820302411,
  3259730800, 3345764771, 3516065817, 3600352804, 4094571909, 275423344,
  430227734, 506948616, 659060556, 883997877, 958139571, 1322822218,
  1537002063, 1747873779, 1955562222, 2024104815, 2227730452, 2361852424,
  2428436474, 2756734187, 3204031479, 3329325298]

def sha256H0 : List Nat :=
  [1779033703, 3144134277, 1013904242, 2773480762,
   1359893119, 2600822924, 528734635, 1541459225]

/-- Big-endian 32-bit words from a byte list (length a multiple of 4). -/
def bytesToWords : List Nat → List Nat
  | b0 :: b1 :: b2 :: b3 :: rest =>
      (((b0 * 256 + b1) * 256 + b2) * 256 + b3) :: bytesToWords rest
  | _ => []

/-- Extend a 16-word block to the 64-word message schedule. -/
def extendSchedule (block : List Nat) : Array Nat :=
  (List.range 48).foldl
    (fun w i =>
      let t := i + 16
      w.push ((smallSigma1 (w.getD (t - 2) 0) + w.getD (t - 7) 0 +
               smallSigma0 (w.getD (t - 15) 0) + w.getD (t - 16) 0) % M32))
    (List.toArray block)

/-- One SHA-256 compression step over a 16-word block. -/
def sha256Compress (hs : List Nat) (block : List Nat) : List Nat :=
  let w := extendSchedule block
  let a0 := hs.getD 0 0
  let b0 := hs.getD 1 0
  let c0 := hs.getD 2 0
  let d0 := hs.getD 3 0
  let e0 := hs.getD 4 0
  let f0 := hs.getD 5 0
  let g0 := hs.getD 6 0
  let h0 := hs.getD 7 0
  let fin := (List.range 64).foldl
    (fun (st : Nat × Nat × Nat × Nat × Nat × Nat × Nat × Nat) i =>
      let (a, b, c, d, e, f, g, h) := st
      let t1 := (h + bigSigma1 e + chFn e f g + sha256K.getD i 0 + w.getD i 0) % M32
      let t2 := (bigSigma0 a + majFn a b c) % M32
      (add32 t1 t2, a, b, c, add32 d t1, e, f, g))
    (a0, b0, c0, d0, e0, f0, g0, h0)
  match fin with
  | (a, b, c, d, e, f, g, h) =>
      [add32 a0 a, add32 b0 b, add32 c0 c, add32 d0 d,
       add32 e0 e, add32 f0 f, add32 g0 g, add32 h0 h]

/-- Fold the compression over consecutive 16-word blocks.  The fuel argument
is an upper bound on the number of blocks; each step consumes 16 words, so
the word-list length is always a sufficient fuel. -/
def sha256Blocks : Nat → List Nat → List Nat → List Nat
  | 0, hs, _ => hs
  | _ + 1, hs, [] => hs
  | fuel + 1, hs, x :: rest =>
      sha256Blocks fuel (sha256Compress hs ((x :: rest).take 16)) ((x :: rest).drop 16)

/-- Big-endian byte expansion of a 32-bit word. -/
def word4BE (w : Nat) : List Nat :=
  [w / 16777216 % 256, w / 65536 % 256, w / 256 % 256, w % 256]

/-- Big-endian 64-bit length field of the padding. -/
def lenBE8 (n : Nat) : List Nat :=
  [n / 72057594037927936 % 256, n / 281474976710656 % 256,
   n / 1099511627776 % 256, n / 4294967296 % 256,
   n / 16777216 % 256, n / 65536 % 256, n / 256 % 256, n % 256]

/-- SHA-256 digest of a byte list, as 32 bytes. -/
def sha256Bytes (msg : List Nat) : List Nat :=
  let l := msg.length
  let padded := msg ++ 128 :: List.replicate ((119 - l % 64) % 64) 0 ++ lenBE8 (8 * l)
  let ws := bytesToWords padded
  (sha256Blocks ws.length sha256H0 ws).flatMap word4BE

/-- HMAC-SHA256 (RFC 2104) with a 64-byte block size, as 32 bytes. -/
def hmacSha256 (key msg : List Nat) : List Nat :=
  let k0 := if key.length > 64 then sha256Bytes key else key
  let k := k0 ++ List.replicate (64 - k0.length) 0
  let ipadKey := k.map (fun b => b ^^^ 54)
  let opadKey := k.map (fun b => b ^^^ 92)
  sha256Bytes (opadKey ++ sha256Bytes (ipadKey ++ msg))

def hexChar (n : Nat) : Char :=
  if n < 10 then Char.ofNat (48 + n) else Char.ofNat (87 + n)

def byteHex (b : Nat) : String := String.mk [hexChar (b / 16), hexChar (b % 16)]

def hexOfBytes (bs : List Nat) : String := String.join (bs.map byteHex)

/-- `hmac.new(key, msg, hashlib.sha256).hexdigest()`. -/
def hmacSha256Hex (key msg : List Nat) : String := hexOfBytes (hmacSha256 key msg)

/-- UTF-8 encoding of a string as bytes, as Python `s.encode("utf-8")`. -/
def charBytes (c : Char) : List Nat :=
  let n := c.toNat
  if n < 128 then [n]
  else if n < 2048 then [192 + n / 64, 128 + n % 64]
  else if n < 65536 then [224 + n / 4096, 128 + (n / 64) % 64, 128 + n % 64]
  else [240 + n / 262144, 128 + (n / 4096) % 64, 128 + (n / 64) % 64, 128 + n % 64]

def strBytes (s : String) : List Nat := s.data.flatMap charBytes

/-! ## Character-level string primitives

Kernel-computable counterparts of the Python string operations used by the
source (`split`, `strip`, `startswith`, `lower`, substring test), written by
structural recursion over the character list. -/

def pyWS (c : Char) : Bool :=
  c.toNat == 32 || (9 ≤ c.toNat && c.toNat ≤ 13)

def charTrimLeft : List Char → List Char
  | [] => []
  | c :: rest => if pyWS c then charTrimLeft rest else c :: rest

/-- Python `s.strip()`. -/
def pyStrip (s : String) : String :=
  String.mk ((charTrimLeft ((charTrimLeft s.data).reverse)).reverse)

def charSplit (sep : Char) : List Char → List (List Char)
  | [] => [[]]
  | c :: rest =>
      match charSplit sep rest with
      | [] => [[]]
      | y :: ys => if c == sep then [] :: y :: ys else (c :: y) :: ys

/-- Python `s.split(sep)` for a one-character separator. -/
def pySplit (s : String) (sep : Char) : List String :=
  (charSplit sep s.data).map String.mk

/-- Does the second list start with the first? (Python `startswith`.) -/
def charLeads : List Char → List Char → Bool
  | [], _ => true
  | _ :: _, [] => false
  | p :: ps, x :: xs => p == x && charLeads ps xs

def charContains (pat : List Char) : List Char → Bool
  | [] => charLeads pat []
  | x :: xs => charLeads pat (x :: xs) || charContains pat xs

/-- Python `pat in s`. -/
def hasSubstr (s pat : String) : Bool := charContains pat.data s.data

def lowChar (c : Char) : Char :=
  if 65 ≤ c.toNat && c.toNat ≤ 90 then Char.ofNat (c.toNat + 32) else c

/-- Python `s.lower()` on ASCII. -/
def pyLower (s : String) : String := String.mk (s.data.map lowChar)

/-- Python `",".join(parts)`. -/
def commaJoin : List String → String
  | [] => ""
  | [x] => x
  | x :: y :: rest => x ++ "," ++ commaJoin (y :: rest)

/-! ## Signature verifier

`frappe_dwf.frappe_dwf.ian_mpps_handlers.verify_signature`.  The configured
site secret (`frappe.get_conf().get("dwf_api_secret")`) is the `secret`
parameter; headers are an association list; the body is the exact raw bytes. -/

def verify_signature (secret : Option String) (headers : List (String × String))
    (body_bytes : List Nat) : Bool :=
  if !(otruthy secret) then
    true
  else
    match pyOr (hget headers "X-Signature") (hget headers "X-Hub-Signature") with
    | none => false
    | some sh =>
        if sh == "" then false
        else
          let sig := if charLeads "sha256=".data sh.data then String.mk (sh.data.drop 7) else sh
          let expected := hmacSha256Hex (strBytes (secret.getD "")) body_bytes
          expected == sig

/-! ## Data model

One record type per persisted DocType, plus the `Store`: the persistence
backend holding every record list.  `spsSaves` counts calls of
`sps.save(...)`, so that "performs no additional write" is observable. -/

structure SOPInstanceRec where
  sop_uid : String
  stored_at_aet : Option String
  patient_id : Option String
  accession_number : Option String
  created_at : String
deriving Repr, DecidableEq

structure IANRec where
  ian_id : String
  source : String
  sop_instance_uids : String
  availability_status : String
  timestamp : String
deriving Repr, DecidableEq

structure PPSRec where
  pps_uid : String
  sps : String
  rp : String
  actor : String
  status : String
  instance_uids : String
  created_at : String
deriving Repr, DecidableEq

structure SPSRec where
  sps_uid : String
  status : String
deriving Repr, DecidableEq

structure UPSRec where
  ups_id : String
  rp : String
  ups_status : String
  actor : String
  instance_uids : String
  start_time : Option String
  end_time : Option String
deriving Repr, DecidableEq

structure MessageRec where
  message_id : String
  message_type : String
  payload : String
  source : Option String
  destination : Option String
  correlation_id : Option String
  status : String
  received_at : String
deriving Repr, DecidableEq

structure Store where
  messages : List MessageRec
  ians : List IANRec
  sops : List SOPInstanceRec
  ppss : List PPSRec
  spss : List SPSRec
  upss : List UPSRec
  enqueued : List (String × String)
  spsSaves : Nat
deriving Repr, DecidableEq

def emptyStore : Store := ⟨[], [], [], [], [], [], [], 0⟩

/-- `sps.save(ignore_permissions=True)`: update the record keyed by sps_uid
and count the write. -/
def saveSPS (s : Store) (sps : SPSRec) : Store :=
  { s with
    spss := s.spss.map (fun r => if r.sps_uid == sps.sps_uid then sps else r),
    spsSaves := s.spsSaves + 1 }

/-- The check-then-insert used at every SOPInstance creation site:
`if not frappe.get_all('SOPInstance', filters=...): insert`. -/
def sopGetOrCreate (rec : SOPInstanceRec) (s : Store) : Store :=
  if s.sops.any (fun r => r.sop_uid == rec.sop_uid) then s
  else { s with sops := s.sops ++ [rec] }

/-! ## UID utilities -/

/-- The comma split-strip-filter comprehension
`[u.strip() for u in uids.split(',') if u.strip()]` used by `api.py`, and the
spec §4.5 `splitUids`. -/
def split_uids (uids : String) : List String :=
  ((pySplit uids ',').map pyStrip).filter (fun u => u ≠ "")

/-- Heterogeneous UID payload field: a JSON value that is absent, a delimited
string, or a list of strings. -/
inductive UidsInput
  | none_ : UidsInput
  | str : String → UidsInput
  | list : List String → UidsInput
deriving Repr, DecidableEq

def uidsTruthy : UidsInput → Bool
  | .none_ => false
  | .str s => s ≠ ""
  | .list l => !l.isEmpty

/-- Python `a or b` on the payload UID fields. -/
def uidsOr (a b : UidsInput) : UidsInput := if uidsTruthy a then a else b

/-- Modelled from the spec: `frappe_dwf.frappe_dwf.utils.normalize_uids` is
not in the source tree; per §4.5 it accepts either a delimited string or an
ordered sequence of strings and produces one canonical comma-separated,
trimmed representation with empty entries dropped. -/
def normalize_uids : UidsInput → String
  | .none_ => ""
  | .str s => commaJoin (split_uids s)
  | .list l => commaJoin ((l.map pyStrip).filter (fun u => u ≠ ""))

/-- Modelled from the spec: `frappe_dwf.frappe_dwf.utils.get_or_create_sopinstance`
is not in the source tree; per §4.5 it looks up by uid, creates with the
supplied optional metadata when absent, and returns the existing record
without modification when present. -/
def get_or_create_sopinstance (uid : String) (stored_at_aet patient_id accession_number : Option String)
    (now : String) (s : Store) : Store :=
  sopGetOrCreate ⟨uid, stored_at_aet, patient_id, accession_number, now⟩ s

/-! ## Inner app API (`src/frappe_dwf/frappe_dwf/api.py`)

String arguments use `""` for Python `None`: every use in the source goes
through `or ''` or truthiness tests, under which the two are
indistinguishable. -/

inductive ApiResult
  | created : String → String → ApiResult
  | exists_ : String → String → ApiResult
  | thrown : String → ApiResult
  | forbidden : String → ApiResult
deriving Repr, DecidableEq

def isForbidden : ApiResult → Bool
  | .forbidden _ => true
  | _ => false

/-- `receive_ian(ian_id, source, sop_uids, availability_status)`. -/
def receive_ian (ian_id source sop_uids availability_status now : String)
    (s : Store) : ApiResult × Store :=
  if ian_id == "" then (.thrown "ian_id is required", s)
  else if (s.ians.any (fun r => r.ian_id == ian_id)) then (.exists_ "ian_id" ian_id, s)
  else
    let s1 := { s with ians := s.ians ++ [⟨ian_id, source, sop_uids, availability_status, now⟩] }
    let s2 := (split_uids sop_uids).foldl
      (fun st uid => sopGetOrCreate ⟨uid, some source, none, none, now⟩ st) s1
    let s3 := { s2 with enqueued := s2.enqueued ++ [("frappe_dwf.api._process_ian", ian_id)] }
    (.created "ian_id" ian_id, s3)

/-- `_process_ian(ian_id)`: the background worker only reads the store (the
matching logic is an explicit TODO stub in the source). -/
def process_ian (_ian_id : String) (s : Store) : Store := s

/-- `create_pps(pps_uid, sps_uid, rp_id, actor, status, instance_uids)`. -/
def create_pps (pps_uid sps_uid rp_id actor status instance_uids now : String)
    (s : Store) : ApiResult × Store :=
  if pps_uid == "" then (.thrown "pps_uid is required", s)
  else if (s.ppss.any (fun r => r.pps_uid == pps_uid)) then (.exists_ "pps_uid" pps_uid, s)
  else
    let s1 := { s with ppss := s.ppss ++ [(⟨pps_uid, sps_uid, rp_id, actor, status, instance_uids, now⟩ : PPSRec)] }
    let s2 := { s1 with enqueued := s1.enqueued ++ [("frappe_dwf.api._process_pps", pps_uid)] }
    (.created "pps_uid" pps_uid, s2)

/-- `_process_pps(pps_uid)`: when the PPS is found, an `sps` reference is
looked up and, if found, `sps.save` runs unconditionally with the status set
to Completed only when the PPS status is COMPLETED; then the instance UID
fan-out runs. -/
def process_pps (pps_uid now : String) (s : Store) : Store :=
  match s.ppss.find? (fun r => r.pps_uid == pps_uid) with
  | none => s
  | some pps =>
      let s1 :=
        if pps.sps ≠ "" then
          match s.spss.find? (fun r => r.sps_uid == pps.sps) with
          | none => s
          | some sps =>
              saveSPS s { sps with
                status := if pps.status == "COMPLETED" then "Completed" else sps.status }
        else s
      (split_uids pps.instance_uids).foldl
        (fun st uid => sopGetOrCreate ⟨uid, none, none, none, now⟩ st) s1

/-- The UPS record built by `create_ups`, with its status-driven
start and end times. -/
def ups_doc (ups_id rp_id ups_status actor instance_uids now : String) : UPSRec :=
  { ups_id := ups_id, rp := rp_id, ups_status := ups_status, actor := actor,
    instance_uids := instance_uids,
    start_time := if ups_status == "IN-PROGRESS" then some now else none,
    end_time :=
      if ups_status == "COMPLETED" || ups_status == "FAILED" || ups_status == "CANCELLED"
      then some now else none }

/-- `create_ups(ups_id, rp_id, ups_status, actor, instance_uids)`. -/
def create_ups (ups_id rp_id ups_status actor instance_uids now : String)
    (s : Store) : ApiResult × Store :=
  if ups_id == "" then (.thrown "ups_id is required", s)
  else if (s.upss.any (fun r => r.ups_id == ups_id)) then (.exists_ "ups_id" ups_id, s)
  else
    let s1 := { s with upss := s.upss ++ [ups_doc ups_id rp_id ups_status actor instance_uids now] }
    let s2 :=
      if instance_uids ≠ "" && ups_status == "COMPLETED" then
        (split_uids instance_uids).foldl
          (fun st uid => sopGetOrCreate ⟨uid, none, none, none, now⟩ st) s1
      else s1
    (.created "ups_id" ups_id, s2)

/-! ## IAN and MPPS handlers (`src/frappe_dwf/frappe_dwf/ian_mpps_handlers.py`)

The JSON payload is a record of optional fields; `body_bytes` is the
`json.dumps(payload).encode("utf-8")` serialization produced by the standard
library, passed explicitly.  `request_headers` is `None` or a dict. -/

structure IanPayload where
  ian_id : Option String
  source : Option String
  sop_instance_uids : UidsInput
  sop_uids : UidsInput
  availability_status : Option String
  timestamp : Option String
  patient_id : Option String
  accession_number : Option String
deriving Repr, DecidableEq

structure MppsPayload where
  pps_uid : Option String
  sps_uid : Option String
  rp_id : Option String
  actor : Option String
  status : Option String
  instance_uids : UidsInput
  patient_id : Option String
  accession_number : Option String
  created_at : Option String
deriving Repr, DecidableEq

/-- Python truthiness of the `request_headers` argument: `None` and the empty
dict are falsy. -/
def headersTruthy : Option (List (String × String)) → Bool
  | none => false
  | some l => !l.isEmpty

/-- `ingest_ian(payload, request_headers)`. -/
def ingest_ian (p : IanPayload) (body_bytes : List Nat)
    (request_headers : Option (List (String × String))) (secret : Option String)
    (now : String) (s : Store) : ApiResult × Store :=
  if headersTruthy request_headers &&
      !(verify_signature secret (request_headers.getD []) body_bytes) then
    (.forbidden "Forbidden: invalid signature", s)
  else if !(otruthy p.ian_id) then
    (.thrown "IAN payload missing required field: ian_id", s)
  else
    let ian_id := p.ian_id.getD ""
    if s.ians.any (fun r => r.ian_id == ian_id) then (.exists_ "ian_id" ian_id, s)
    else
      let uids := normalize_uids (uidsOr p.sop_instance_uids p.sop_uids)
      let s1 := { s with ians := s.ians ++ [(⟨ian_id, p.source.getD "", uids,
        p.availability_status.getD "Available",
        if otruthy p.timestamp then p.timestamp.getD "" else now⟩ : IANRec)] }
      let s2 := (split_uids uids).foldl
        (fun st uid => get_or_create_sopinstance uid p.source p.patient_id p.accession_number now st) s1
      let s3 := { s2 with enqueued := s2.enqueued ++ [("process_ian", ian_id)] }
      (.created "ian_id" ian_id, s3)

/-- `ingest_mpps(payload, request_headers)`. -/
def ingest_mpps (p : MppsPayload) (body_bytes : List Nat)
    (request_headers : Option (List (String × String))) (secret : Option String)
    (now : String) (s : Store) : ApiResult × Store :=
  if headersTruthy request_headers &&
      !(verify_signature secret (request_headers.getD []) body_bytes) then
    (.forbidden "Forbidden: invalid signature", s)
  else if !(otruthy p.pps_uid) then
    (.thrown "MPPS payload missing required field: pps_uid", s)
  else
    let pps_uid := p.pps_uid.getD ""
    if s.ppss.any (fun r => r.pps_uid == pps_uid) then (.exists_ "pps_uid" pps_uid, s)
    else
      let uids := normalize_uids p.instance_uids
      let s1 := { s with ppss := s.ppss ++ [(⟨pps_uid, p.sps_uid.getD "", p.rp_id.getD "",
        p.actor.getD "", p.status.getD "COMPLETED", uids,
        if otruthy p.created_at then p.created_at.getD "" else now⟩ : PPSRec)] }
      let s2 :=
        if otruthy p.sps_uid then
          match s1.spss.find? (fun r => r.sps_uid == p.sps_uid.getD "") with
          | none => s1
          | some sps =>
              if sps.status ≠ "Completed" then saveSPS s1 { sps with status := "Completed" }
              else s1
        else s1
      let s3 := (split_uids uids).foldl
        (fun st uid => get_or_create_sopinstance uid p.actor p.patient_id p.accession_number now st) s2
      let s4 := { s3 with enqueued := s3.enqueued ++ [("process_pps", pps_uid)] }
      (.created "pps_uid" pps_uid, s4)

/-! ## Message gateway (`src/frappe_dwf/api.py`)

`normalize_hl7_v2` is embedded on its fallback branch: `hl7apy` is not among
the repository sources, so `HL7APY_AVAILABLE` is false and the naive-split
extractor of lines 179-241 runs.  `frappe.generate_hash()` is the `genHash`
parameter. -/

structure NormalizedMsg where
  message_id : Option String
  message_type : Option String
  payload : Option String
  source_actor : Option String
  destination_actor : Option String
  correlation_id : Option String
deriving Repr, DecidableEq

/-- A parsed JSON request body.  The `payload` member holds the textual form:
a structured value has already been serialized by the json library. -/
structure JsonPayload where
  message_id : Option String
  message_type : Option String
  payload : Option String
  source_actor : Option String
  destination_actor : Option String
  correlation_id : Option String
deriving Repr, DecidableEq

/-- `normalize_from_json(payload)`: pure field remapping. -/
def normalize_from_json (p : JsonPayload) : NormalizedMsg :=
  ⟨p.message_id, p.message_type, p.payload, p.source_actor, p.destination_actor, p.correlation_id⟩

/-- `re.split(r'\r\n?|\n', ...)`: segment terminators CRLF, lone CR or LF. -/
def splitSegChars : List Char → List (List Char)
  | [] => [[]]
  | '\r' :: '\n' :: rest => [] :: splitSegChars rest
  | '\r' :: rest => [] :: splitSegChars rest
  | '\n' :: rest => [] :: splitSegChars rest
  | c :: rest =>
      match splitSegChars rest with
      | [] => [[c]]
      | y :: ys => (c :: y) :: ys

def splitSegments (s : String) : List String := (splitSegChars s.data).map String.mk

/-- Segment grouping of the fallback parser: split the stripped raw text on
terminators, drop empty segments, split each on the pipe. -/
def seg_parts (raw : String) : List (List String) :=
  ((splitSegments (pyStrip raw)).filter (fun seg => seg ≠ "")).map (fun seg => pySplit seg '|')

/-- First segment of a given name, as `seg_map[name][0]`. -/
def firstNamed (segs : List (List String)) (name : String) : Option (List String) :=
  (segs.filter (fun p => p.headD "" == name)).head?

/-- The `combine(a, b)` helper: join with a pipe when both truthy, else `a or b`. -/
def combine (a b : Option String) : Option String :=
  if otruthy a && otruthy b then some ((a.getD "") ++ "|" ++ (b.getD "")) else pyOr a b

/-- Field extraction of the fallback parser from the grouped segments. -/
def extractFallback (genHash : String) (segs : List (List String)) : NormalizedMsg :=
  let msh := (firstNamed segs "MSH").getD []
  let message_type := msh[8]?
  let message_id := msh[9]?
  let source_actor := combine msh[2]? msh[3]?
  let destination_actor := combine msh[4]? msh[5]?
  let pidFallback : Option String :=
    match firstNamed segs "PID" with
    | some pid0 =>
        if pid0.length > 3 then (if pid0.length > 3 then pid0[3]? else pid0[2]?) else none
    | none => none
  let correlation_id : Option String :=
    match firstNamed segs "ORC" with
    | some orc0 => if orc0.length > 1 then orc0[1]? else pidFallback
    | none => pidFallback
  { message_id := some (if otruthy message_id then message_id.getD "" else genHash),
    message_type := some (if otruthy message_type then message_type.getD "" else "UNKNOWN"),
    payload := none,
    source_actor := source_actor,
    destination_actor := destination_actor,
    correlation_id := correlation_id }

/-- `normalize_hl7_v2(raw)` on the fallback branch. -/
def normalize_hl7_v2 (genHash raw : String) : NormalizedMsg :=
  if raw == "" then
    { message_id := some genHash, message_type := some "UNKNOWN", payload := some raw,
      source_actor := none, destination_actor := none, correlation_id := none }
  else
    { extractFallback genHash (seg_parts raw) with payload := some raw }

structure MsgData where
  message_id : String
  status : String
  correlation_id : Option String
deriving Repr, DecidableEq

structure GatewayResponse where
  status : String
  message : String
  data : Option MsgData
  error : Option String
deriving Repr, DecidableEq

/-- Content-type dispatch of the gateway: JSON parse (fallible, supplied by
the json library) or the HL7 normalizer. -/
def gatewayNormalize (jsonLoads : String → Except String JsonPayload)
    (genHash raw content_type : String) : Except String NormalizedMsg :=
  if hasSubstr (pyLower content_type) "application/json" then
    (jsonLoads raw).map normalize_from_json
  else .ok (normalize_hl7_v2 genHash raw)

/-- The Message doc built by the gateway before insertion. -/
def gatewayDoc (msg : NormalizedMsg) (genHash now raw : String) : MessageRec :=
  { message_id := if otruthy msg.message_id then msg.message_id.getD "" else genHash,
    message_type := if otruthy msg.message_type then msg.message_type.getD "" else "UNKNOWN",
    payload := if otruthy msg.payload then msg.payload.getD "" else raw,
    source := msg.source_actor, destination := msg.destination_actor,
    correlation_id := msg.correlation_id, status := "received", received_at := now }

/-- The gateway lookup `frappe.db.get_all("Message", filters=...)`, guarded by
`if msg.get("message_id")`. -/
def gatewayLookup (msg : NormalizedMsg) (s : Store) : Option MessageRec :=
  if otruthy msg.message_id then
    s.messages.find? (fun m => m.message_id == msg.message_id.getD "")
  else none

/-- `ihe_receive_message()`.  `jsonLoads` is the fallible `json.loads`;
`insertErr` injects a store failure of `message_doc.insert` (`none` when the
store accepts the write); the outer try/except is the final match. -/
def ihe_receive_message (jsonLoads : String → Except String JsonPayload)
    (insertErr : Option String) (genHash now raw content_type : String)
    (s : Store) : GatewayResponse × Store :=
  let attempt : Except String (GatewayResponse × Store) :=
    match gatewayNormalize jsonLoads genHash raw content_type with
    | .error e => .error e
    | .ok msg =>
      match gatewayLookup msg s with
      | some m =>
          .ok ({ status := "200", message := "Message already exists",
                 data := some ⟨m.message_id, m.status, m.correlation_id⟩, error := none }, s)
      | none =>
          match insertErr with
          | some e => .error e
          | none =>
              let doc := gatewayDoc msg genHash now raw
              .ok ({ status := "201", message := "Message accepted and queued",
                     data := some ⟨doc.message_id, doc.status, doc.correlation_id⟩, error := none },
                   { s with messages := s.messages ++ [doc] })
  match attempt with
  | .ok r => r
  | .error e =>
      ({ status := "500", message := "Failed to accept message", data := none, error := some e }, s)

/-! ## Operation alphabet

Every store-touching operation of the pipeline, for invariants over arbitrary
sequences of ingestions. -/

inductive DwfOp
  | rian (ian_id source sop_uids availability_status now : String)
  | cpps (pps_uid sps_uid rp_id actor status instance_uids now : String)
  | ppps (pps_uid now : String)
  | pian (ian_id : String)
  | cups (ups_id rp_id ups_status actor instance_uids now : String)
  | iian (p : IanPayload) (body : List Nat) (hdrs : Option (List (String × String)))
      (secret : Option String) (now : String)
  | imps (p : MppsPayload) (body : List Nat) (hdrs : Option (List (String × String)))
      (secret : Option String) (now : String)
  | gw (jsonLoads : String → Except String JsonPayload) (insertErr : Option String)
      (genHash now raw content_type : String)

def applyOp (s : Store) : DwfOp → Store
  | .rian a b c d e => (receive_ian a b c d e s).2
  | .cpps a b c d e f g => (create_pps a b c d e f g s).2
  | .ppps a b => process_pps a b s
  | .pian a => process_ian a s
  | .cups a b c d e f => (create_ups a b c d e f s).2
  | .iian p body hdrs secret now => (ingest_ian p body hdrs secret now s).2
  | .imps p body hdrs secret now => (ingest_mpps p body hdrs secret now s).2
  | .gw jl ie g n raw ct => (ihe_receive_message jl ie g n raw ct s).2

/-! ## Store-shape lemmas for the SOPInstance get-or-create folds -/

/-- The SOPInstance uid column has no duplicates. -/
def sopNodup (s : Store) : Prop := (s.sops.map (fun r => r.sop_uid)).Nodup

instance (s : Store) : Decidable (sopNodup s) := by unfold sopNodup; infer_instance

lemma sopGetOrCreate_eq (rec : SOPInstanceRec) (st : Store) :
    ∃ t, sopGetOrCreate rec st = { st with sops := st.sops ++ t } := by
  unfold sopGetOrCreate
  split
  · exact ⟨[], by simp⟩
  · exact ⟨[rec], rfl⟩

lemma sopGetOrCreate_nodup (rec : SOPInstanceRec) (st : Store) (h : sopNodup st) :
    sopNodup (sopGetOrCreate rec st) := by
  unfold sopGetOrCreate sopNodup at *
  split
  · exact h
  · next hany =>
      simp only [List.map_append, List.map_cons, List.map_nil]
      rw [List.nodup_append]
      refine ⟨h, List.nodup_singleton _, ?_⟩
      intro a ha hb
      simp only [List.mem_singleton] at hb
      subst hb
      simp only [List.any_eq_true, beq_iff_eq, not_exists] at hany
      simp only [List.mem_map] at ha
      obtain ⟨r, hr, hr2⟩ := ha
      exact hany r ⟨hr, hr2⟩

/-- `sopGetOrCreate` leaves a record for the created uid in the store. -/
lemma sopGetOrCreate_covers (rec : SOPInstanceRec) (st : Store) :
    ∃ r ∈ (sopGetOrCreate rec st).sops, r.sop_uid = rec.sop_uid := by
  unfold sopGetOrCreate
  split
  · next hany =>
      simp only [List.any_eq_true, beq_iff_eq] at hany
      obtain ⟨r, hr, hr2⟩ := hany
      exact ⟨r, hr, hr2⟩
  · exact ⟨rec, by simp, rfl⟩

lemma storeFold_eq (f : Store → String → Store)
    (hstep : ∀ st uid, ∃ t, f st uid = { st with sops := st.sops ++ t }) :
    ∀ (uids : List String) (st : Store),
      ∃ t, uids.foldl f st = { st with sops := st.sops ++ t }
  | [], st => ⟨[], by simp⟩
  | uid :: rest, st => by
      obtain ⟨t1, h1⟩ := hstep st uid
      obtain ⟨t2, h2⟩ := storeFold_eq f hstep rest (f st uid)
      refine ⟨t1 ++ t2, ?_⟩
      show rest.foldl f (f st uid) = _
      rw [h2, h1]
      simp

lemma storeFold_nodup (f : Store → String → Store)
    (hstep : ∀ st uid, sopNodup st → sopNodup (f st uid)) :
    ∀ (uids : List String) (st : Store), sopNodup st → sopNodup (uids.foldl f st)
  | [], _, h => h
  | uid :: rest, st, h => storeFold_nodup f hstep rest (f st uid) (hstep st uid h)

/-- After the fold, every uid of the list has a SOPInstance record. -/
lemma storeFold_covers (f : Store → String → Store)
    (hstep : ∀ st uid, ∃ t, f st uid = { st with sops := st.sops ++ t })
    (hcov : ∀ st uid, ∃ r ∈ (f st uid).sops, r.sop_uid = uid) :
    ∀ (uids : List String) (st : Store), ∀ uid ∈ uids,
      ∃ r ∈ (uids.foldl f st).sops, r.sop_uid = uid
  | [], _, uid, h => absurd h (List.not_mem_nil uid)
  | u :: rest, st, uid, h => by
      rcases List.mem_cons.mp h with heq | hmem
      · rw [heq]
        obtain ⟨r, hr, hr2⟩ := hcov st u
        obtain ⟨t, ht⟩ := storeFold_eq f hstep rest (f st u)
        refine ⟨r, ?_, hr2⟩
        show r ∈ (rest.foldl f (f st u)).sops
        rw [ht]
        exact List.mem_append_left _ hr
      · exact storeFold_covers f hstep hcov rest (f st u) uid hmem

/-! ## Gateway path lemmas -/

lemma ihe_norm_error (jl : String → Except String JsonPayload) (ie : Option String)
    (g n raw ct e : String) (s : Store) (hn : gatewayNormalize jl g raw ct = .error e) :
    ihe_receive_message jl ie g n raw ct s =
      ({ status := "500", message := "Failed to accept message", data := none, error := some e }, s) := by
  unfold ihe_receive_message
  simp [hn]

lemma ihe_found (jl : String → Except String JsonPayload) (ie : Option String)
    (g n raw ct : String) (s : Store) (m : NormalizedMsg) (mrec : MessageRec)
    (hn : gatewayNormalize jl g raw ct = .ok m) (hl : gatewayLookup m s = some mrec) :
    ihe_receive_message jl ie g n raw ct s =
      ({ status := "200", message := "Message already exists",
         data := some ⟨mrec.message_id, mrec.status, mrec.correlation_id⟩, error := none }, s) := by
  unfold ihe_receive_message
  simp [hn, hl]

lemma ihe_insert_error (jl : String → Except String JsonPayload)
    (g n raw ct e : String) (s : Store) (m : NormalizedMsg)
    (hn : gatewayNormalize jl g raw ct = .ok m) (hl : gatewayLookup m s = none) :
    ihe_receive_message jl (some e) g n raw ct s =
      ({ status := "500", message := "Failed to accept message", data := none, error := some e }, s) := by
  unfold ihe_receive_message
  simp [hn, hl]

lemma ihe_created (jl : String → Except String JsonPayload)
    (g n raw ct : String) (s : Store) (m : NormalizedMsg)
    (hn : gatewayNormalize jl g raw ct = .ok m) (hl : gatewayLookup m s = none) :
    ihe_receive_message jl none g n raw ct s =
      ({ status := "201", message := "Message accepted and queued",
         data := some ⟨(gatewayDoc m g n raw).message_id, "received", m.correlation_id⟩,
         error := none },
       { s with messages := s.messages ++ [gatewayDoc m g n raw] }) := by
  unfold ihe_receive_message
  simp [hn, hl, gatewayDoc]

/-- The gateway either leaves the store unchanged or appends one Message. -/
lemma ihe_store (jl : String → Except String JsonPayload) (ie : Option String)
    (g n raw ct : String) (s : Store) :
    (ihe_receive_message jl ie g n raw ct s).2 = s ∨
    ∃ doc, (ihe_receive_message jl ie g n raw ct s).2 = { s with messages := s.messages ++ [doc] } := by
  cases hn : gatewayNormalize jl g raw ct with
  | error e => left; rw [ihe_norm_error jl ie g n raw ct e s hn]
  | ok m =>
      cases hl : gatewayLookup m s with
      | some mrec => left; rw [ihe_found jl ie g n raw ct s m mrec hn hl]
      | none =>
          cases ie with
          | some e => left; rw [ihe_insert_error jl g n raw ct e s m hn hl]
          | none => right; exact ⟨gatewayDoc m g n raw, by rw [ihe_created jl g n raw ct s m hn hl]⟩

/-! ## Per-operation SOPInstance shape lemmas -/

lemma saveSPS_sops (s : Store) (x : SPSRec) : (saveSPS s x).sops = s.sops := rfl

lemma sopNodup_of_sops_eq {s1 s2 : Store} (h : s1.sops = s2.sops) (h2 : sopNodup s2) :
    sopNodup s1 := by
  unfold sopNodup at *
  rw [h]
  exact h2

lemma receive_ian_shape (a b c d e : String) (s : Store) :
    (∃ t, (receive_ian a b c d e s).2.sops = s.sops ++ t) ∧
    (sopNodup s → sopNodup (receive_ian a b c d e s).2) := by
  unfold receive_ian
  split
  · exact ⟨⟨[], by simp⟩, fun h => h⟩
  split
  · exact ⟨⟨[], by simp⟩, fun h => h⟩
  · simp only
    obtain ⟨t, ht⟩ := storeFold_eq
      (fun st uid => sopGetOrCreate ⟨uid, some b, none, none, e⟩ st)
      (fun st uid => sopGetOrCreate_eq _ _) (split_uids c)
      { s with ians := s.ians ++ [⟨a, b, c, d, e⟩] }
    constructor
    · exact ⟨t, by rw [ht]⟩
    · intro h
      exact storeFold_nodup _ (fun st uid hh => sopGetOrCreate_nodup _ _ hh) _ _ h

lemma create_pps_sops (a b c d e f g : String) (s : Store) :
    (create_pps a b c d e f g s).2.sops = s.sops := by
  unfold create_pps
  split
  · rfl
  split <;> rfl

lemma foldFacts (f : Store → String → Store)
    (hstep : ∀ st uid, ∃ t, f st uid = { st with sops := st.sops ++ t })
    (hnd : ∀ st uid, sopNodup st → sopNodup (f st uid))
    (L : List String) (s s1 : Store) (hs1 : s1.sops = s.sops) :
    (∃ t, (L.foldl f s1).sops = s.sops ++ t) ∧ (sopNodup s → sopNodup (L.foldl f s1)) := by
  obtain ⟨t, ht⟩ := storeFold_eq f hstep L s1
  refine ⟨⟨t, by rw [ht]; simp [hs1]⟩,
    fun h => storeFold_nodup f hnd L s1 (sopNodup_of_sops_eq hs1 h)⟩

lemma process_pps_shape (pid now : String) (s : Store) :
    (∃ t, (process_pps pid now s).sops = s.sops ++ t) ∧
    (sopNodup s → sopNodup (process_pps pid now s)) := by
  unfold process_pps
  cases hf : s.ppss.find? (fun r => r.pps_uid == pid) with
  | none => exact ⟨⟨[], by simp⟩, fun h => h⟩
  | some pps =>
      refine foldFacts _ (fun st uid => sopGetOrCreate_eq _ _)
        (fun st uid hh => sopGetOrCreate_nodup _ _ hh) _ s _ ?_
      split
      · split <;> rfl
      · rfl

lemma create_ups_shape (a b c d e f : String) (s : Store) :
    (∃ t, (create_ups a b c d e f s).2.sops = s.sops ++ t) ∧
    (sopNodup s → sopNodup (create_ups a b c d e f s).2) := by
  unfold create_ups
  split
  · exact ⟨⟨[], by simp⟩, fun h => h⟩
  split
  · exact ⟨⟨[], by simp⟩, fun h => h⟩
  · simp only
    split
    · obtain ⟨t, ht⟩ := storeFold_eq
        (fun st uid => sopGetOrCreate ⟨uid, none, none, none, f⟩ st)
        (fun st uid => sopGetOrCreate_eq _ _) (split_uids e) _
      constructor
      · exact ⟨t, by rw [ht]⟩
      · intro h
        exact storeFold_nodup _ (fun st uid hh => sopGetOrCreate_nodup _ _ hh) _ _ h
    · exact ⟨⟨[], by simp⟩, fun h => h⟩

lemma ingest_ian_shape (p : IanPayload) (body : List Nat)
    (hdrs : Option (List (String × String))) (secret : Option String) (now : String) (s : Store) :
    (∃ t, (ingest_ian p body hdrs secret now s).2.sops = s.sops ++ t) ∧
    (sopNodup s → sopNodup (ingest_ian p body hdrs secret now s).2) := by
  unfold ingest_ian
  split
  · exact ⟨⟨[], by simp⟩, fun h => h⟩
  split
  · exact ⟨⟨[], by simp⟩, fun h => h⟩
  by_cases hany : (s.ians.any (fun r => r.ian_id == p.ian_id.getD "")) = true
  · rw [if_pos hany]
    exact ⟨⟨[], by simp⟩, fun h => h⟩
  · rw [if_neg hany]
    exact foldFacts _ (fun st uid => sopGetOrCreate_eq _ _)
      (fun st uid hh => sopGetOrCreate_nodup _ _ hh) _ s _ rfl

lemma ingest_mpps_shape (p : MppsPayload) (body : List Nat)
    (hdrs : Option (List (String × String))) (secret : Option String) (now : String) (s : Store) :
    (∃ t, (ingest_mpps p body hdrs secret now s).2.sops = s.sops ++ t) ∧
    (sopNodup s → sopNodup (ingest_mpps p body hdrs secret now s).2) := by
  unfold ingest_mpps
  split
  · exact ⟨⟨[], by simp⟩, fun h => h⟩
  split
  · exact ⟨⟨[], by simp⟩, fun h => h⟩
  by_cases hany : (s.ppss.any (fun r => r.pps_uid == p.pps_uid.getD "")) = true
  · rw [if_pos hany]
    exact ⟨⟨[], by simp⟩, fun h => h⟩
  · rw [if_neg hany]
    refine foldFacts _ (fun st uid => sopGetOrCreate_eq _ _)
      (fun st uid hh => sopGetOrCreate_nodup _ _ hh) _ s _ ?_
    split
    · split
      · rfl
      · split <;> rfl
    · rfl

lemma applyOp_shape (op : DwfOp) (s : Store) :
    (∃ t, (applyOp s op).sops = s.sops ++ t) ∧ (sopNodup s → sopNodup (applyOp s op)) := by
  cases op with
  | rian a b c d e => exact receive_ian_shape a b c d e s
  | cpps a b c d e f g =>
      exact ⟨⟨[], by simp [applyOp, create_pps_sops]⟩,
        fun h => sopNodup_of_sops_eq (create_pps_sops a b c d e f g s) h⟩
  | ppps a b => exact process_pps_shape a b s
  | pian a => exact ⟨⟨[], by simp [applyOp, process_ian]⟩, fun h => h⟩
  | cups a b c d e f => exact create_ups_shape a b c d e f s
  | iian p body hdrs secret now => exact ingest_ian_shape p body hdrs secret now s
  | imps p body hdrs secret now => exact ingest_mpps_shape p body hdrs secret now s
  | gw jl ie g n raw ct =>
      have hs : (applyOp s (.gw jl ie g n raw ct)).sops = s.sops := by
        show (ihe_receive_message jl ie g n raw ct s).2.sops = s.sops
        rcases ihe_store jl ie g n raw ct s with h | ⟨doc, h⟩ <;> rw [h]
      exact ⟨⟨[], by simp [hs]⟩, fun h => sopNodup_of_sops_eq hs h⟩

/-- C4 (claim): after any sequence of pipeline operations, the SOPInstance
uid column stays duplicate-free, and every SOPInstance record present before
the sequence is still present, unchanged, afterwards. -/
theorem sop_instance_first_write_wins :
    ∀ (ops : List DwfOp) (s : Store), sopNodup s →
      sopNodup (ops.foldl applyOp s) ∧
      ∀ r ∈ s.sops, r ∈ (ops.foldl applyOp s).sops
  | [], s, h => ⟨h, fun _ hr => hr⟩
  | op :: ops, s, h => by
      obtain ⟨⟨t, ht⟩, hnd⟩ := applyOp_shape op s
      obtain ⟨ih1, ih2⟩ := sop_instance_first_write_wins ops (applyOp s op) (hnd h)
      refine ⟨ih1, fun r hr => ?_⟩
      exact ih2 r (by rw [ht]; exact List.mem_append_left _ hr)

/-- C4 witness: a concrete run - an IAN carrying a duplicated uid list, then
an MPPS re-sighting one of the uids with different metadata - ends with
unique uids and the original record intact. -/
theorem sop_instance_first_write_wins_witness :
    sopNodup ([DwfOp.rian "I1" "AE1" "1.2, 1.2,3.4" "Available" "t1",
               DwfOp.imps ⟨some "P1", none, none, some "AE2", some "COMPLETED",
                 .list ["1.2"], some "PAT", some "ACC", none⟩ [] none none "t2"].foldl
                applyOp emptyStore) ∧
    (⟨"1.2", some "AE1", none, none, "t1"⟩ : SOPInstanceRec) ∈
      ([DwfOp.rian "I1" "AE1" "1.2, 1.2,3.4" "Available" "t1",
        DwfOp.imps ⟨some "P1", none, none, some "AE2", some "COMPLETED",
          .list ["1.2"], some "PAT", some "ACC", none⟩ [] none none "t2"].foldl
         applyOp emptyStore).sops := by
  refine ⟨(sop_instance_first_write_wins _ emptyStore (by decide)).1, ?_⟩
  exact (sop_instance_first_write_wins [DwfOp.imps ⟨some "P1", none, none, some "AE2",
    some "COMPLETED", .list ["1.2"], some "PAT", some "ACC", none⟩ [] none none "t2"]
    (applyOp emptyStore (DwfOp.rian "I1" "AE1" "1.2, 1.2,3.4" "Available" "t1"))
    (by decide)).2 _ (by decide)

/-! ## Idempotent replay lemmas -/

lemma receive_ian_replay (a b c d e b2 c2 d2 e2 : String) (s : Store)
    (h : (receive_ian a b c d e s).1 = .created "ian_id" a) :
    receive_ian a b2 c2 d2 e2 (receive_ian a b c d e s).2 =
      (.exists_ "ian_id" a, (receive_ian a b c d e s).2) := by
  unfold receive_ian at h ⊢
  by_cases h1 : (a == "") = true
  · rw [if_pos h1] at h; exact absurd h (by simp)
  by_cases h2 : (s.ians.any (fun r => r.ian_id == a)) = true
  · rw [if_neg h1, if_pos h2] at h; exact absurd h (by simp)
  have ha : ¬ a = "" := by simpa using h1
  have hne : ¬ ∃ x ∈ s.ians, x.ian_id = a := by simpa using h2
  obtain ⟨t, ht⟩ := storeFold_eq
    (fun st uid => sopGetOrCreate ⟨uid, some b, none, none, e⟩ st)
    (fun st uid => sopGetOrCreate_eq _ _) (split_uids c)
    { s with ians := s.ians ++ [⟨a, b, c, d, e⟩] }
  simp [ha, hne, ht, List.any_append]

lemma create_pps_replay (a b c d e f g b2 c2 d2 e2 f2 g2 : String) (s : Store)
    (h : (create_pps a b c d e f g s).1 = .created "pps_uid" a) :
    create_pps a b2 c2 d2 e2 f2 g2 (create_pps a b c d e f g s).2 =
      (.exists_ "pps_uid" a, (create_pps a b c d e f g s).2) := by
  unfold create_pps at h ⊢
  by_cases h1 : (a == "") = true
  · rw [if_pos h1] at h; exact absurd h (by simp)
  by_cases h2 : (s.ppss.any (fun r => r.pps_uid == a)) = true
  · rw [if_neg h1, if_pos h2] at h; exact absurd h (by simp)
  have ha : ¬ a = "" := by simpa using h1
  have hne : ¬ ∃ x ∈ s.ppss, x.pps_uid = a := by simpa using h2
  simp [ha, hne, List.any_append]

lemma create_ups_replay (a b c d e f b2 c2 d2 e2 f2 : String) (s : Store)
    (h : (create_ups a b c d e f s).1 = .created "ups_id" a) :
    create_ups a b2 c2 d2 e2 f2 (create_ups a b c d e f s).2 =
      (.exists_ "ups_id" a, (create_ups a b c d e f s).2) := by
  unfold create_ups at h ⊢
  by_cases h1 : (a == "") = true
  · rw [if_pos h1] at h; exact absurd h (by simp)
  by_cases h2 : (s.upss.any (fun r => r.ups_id == a)) = true
  · rw [if_neg h1, if_pos h2] at h; exact absurd h (by simp)
  have ha : ¬ a = "" := by simpa using h1
  have hne : ¬ ∃ x ∈ s.upss, x.ups_id = a := by simpa using h2
  have hid : (ups_doc a b c d e f).ups_id = a := rfl
  have hw : ∃ x ∈ s.upss ++ [ups_doc a b c d e f], x.ups_id = a :=
    ⟨ups_doc a b c d e f, List.mem_append_right _ (List.mem_singleton_self _), hid⟩
  by_cases h3 : (e ≠ "" && (c == "COMPLETED")) = true
  · obtain ⟨he, hc⟩ : ¬ e = "" ∧ c = "COMPLETED" := by simpa using h3
    subst hc
    obtain ⟨t, ht⟩ := storeFold_eq
      (fun st uid => sopGetOrCreate ⟨uid, none, none, none, f⟩ st)
      (fun st uid => sopGetOrCreate_eq _ _) (split_uids e)
      { s with upss := s.upss ++ [ups_doc a b "COMPLETED" d e f] }
    simp [ha, hne, he, ht, hid, hw, List.any_append]
  · have h3p : ¬ (¬ e = "" ∧ c = "COMPLETED") := by simpa using h3
    simp [ha, hne, h3p, hid, hw, List.any_append]

lemma any_ians_after_fold (f : Store → String → Store)
    (hstep : ∀ st uid, ∃ t, f st uid = { st with sops := st.sops ++ t })
    (L : List String) (s2 : Store) (q : IANRec → Bool) (hq : s2.ians.any q = true) :
    ((L.foldl f s2).ians.any q) = true := by
  obtain ⟨t, ht⟩ := storeFold_eq f hstep L s2
  rw [ht]
  exact hq

lemma any_ppss_after_fold (f : Store → String → Store)
    (hstep : ∀ st uid, ∃ t, f st uid = { st with sops := st.sops ++ t })
    (L : List String) (s2 : Store) (q : PPSRec → Bool) (hq : s2.ppss.any q = true) :
    ((L.foldl f s2).ppss.any q) = true := by
  obtain ⟨t, ht⟩ := storeFold_eq f hstep L s2
  rw [ht]
  exact hq

lemma find?_append_none {α} (p : α → Bool) (l1 l2 : List α) (h : l1.find? p = none) :
    (l1 ++ l2).find? p = l2.find? p := by
  induction l1 with
  | nil => rfl
  | cons x xs ih =>
      cases hx : p x with
      | true => simp [List.find?_cons, hx] at h
      | false =>
          simp only [List.find?_cons, hx] at h
          simpa [List.find?_cons, hx] using ih h

lemma ingest_ian_exists (p : IanPayload) (body : List Nat)
    (hdrs : Option (List (String × String))) (secret : Option String) (now : String) (s : Store)
    (hgate : (headersTruthy hdrs && !(verify_signature secret (hdrs.getD []) body)) = false)
    (htr : otruthy p.ian_id = true)
    (hany : (s.ians.any (fun r => r.ian_id == p.ian_id.getD "")) = true) :
    ingest_ian p body hdrs secret now s = (.exists_ "ian_id" (p.ian_id.getD ""), s) := by
  unfold ingest_ian
  rw [if_neg (by simp [hgate]), if_neg (by simp [htr])]
  simp only []
  rw [if_pos hany]

lemma ingest_ian_presence (p : IanPayload) (body : List Nat)
    (hdrs : Option (List (String × String))) (secret : Option String) (now : String) (s : Store)
    (h : (ingest_ian p body hdrs secret now s).1 = .created "ian_id" (p.ian_id.getD "")) :
    otruthy p.ian_id = true ∧
    ((ingest_ian p body hdrs secret now s).2.ians.any
      (fun r => r.ian_id == p.ian_id.getD "")) = true := by
  unfold ingest_ian at h ⊢
  by_cases hg : (headersTruthy hdrs && !(verify_signature secret (hdrs.getD []) body)) = true
  · rw [if_pos hg] at h; exact absurd h (by simp)
  rw [if_neg hg] at h ⊢
  by_cases htr : (otruthy p.ian_id) = true
  · rw [if_neg (by simp [htr])] at h ⊢
    refine ⟨htr, ?_⟩
    by_cases hany : (s.ians.any (fun r => r.ian_id == p.ian_id.getD "")) = true
    · simp [hany] at h
    · simp only [] at h ⊢
      rw [if_neg hany]
      apply any_ians_after_fold _ (fun st uid => sopGetOrCreate_eq _ _)
      simp [List.any_append]
  · rw [if_pos (by simp [htr])] at h; exact absurd h (by simp)

lemma ingest_ian_replay (p p2 : IanPayload) (body body2 : List Nat)
    (hdrs hdrs2 : Option (List (String × String))) (secret secret2 : Option String)
    (now now2 : String) (s : Store)
    (hid : p2.ian_id = p.ian_id)
    (hgate2 : (headersTruthy hdrs2 && !(verify_signature secret2 (hdrs2.getD []) body2)) = false)
    (h : (ingest_ian p body hdrs secret now s).1 = .created "ian_id" (p.ian_id.getD "")) :
    ingest_ian p2 body2 hdrs2 secret2 now2 (ingest_ian p body hdrs secret now s).2 =
      (.exists_ "ian_id" (p2.ian_id.getD ""), (ingest_ian p body hdrs secret now s).2) := by
  obtain ⟨htr, hany⟩ := ingest_ian_presence p body hdrs secret now s h
  exact ingest_ian_exists p2 body2 hdrs2 secret2 now2 _ hgate2
    (by rw [hid]; exact htr) (by rw [hid]; exact hany)

lemma ingest_mpps_exists (p : MppsPayload) (body : List Nat)
    (hdrs : Option (List (String × String))) (secret : Option String) (now : String) (s : Store)
    (hgate : (headersTruthy hdrs && !(verify_signature secret (hdrs.getD []) body)) = false)
    (htr : otruthy p.pps_uid = true)
    (hany : (s.ppss.any (fun r => r.pps_uid == p.pps_uid.getD "")) = true) :
    ingest_mpps p body hdrs secret now s = (.exists_ "pps_uid" (p.pps_uid.getD ""), s) := by
  unfold ingest_mpps
  rw [if_neg (by simp [hgate]), if_neg (by simp [htr])]
  simp only []
  rw [if_pos hany]

lemma ingest_mpps_presence (p : MppsPayload) (body : List Nat)
    (hdrs : Option (List (String × String))) (secret : Option String) (now : String) (s : Store)
    (h : (ingest_mpps p body hdrs secret now s).1 = .created "pps_uid" (p.pps_uid.getD "")) :
    otruthy p.pps_uid = true ∧
    ((ingest_mpps p body hdrs secret now s).2.ppss.any
      (fun r => r.pps_uid == p.pps_uid.getD "")) = true := by
  unfold ingest_mpps at h ⊢
  by_cases hg : (headersTruthy hdrs && !(verify_signature secret (hdrs.getD []) body)) = true
  · rw [if_pos hg] at h; exact absurd h (by simp)
  rw [if_neg hg] at h ⊢
  by_cases htr : (otruthy p.pps_uid) = true
  · rw [if_neg (by simp [htr])] at h ⊢
    refine ⟨htr, ?_⟩
    by_cases hany : (s.ppss.any (fun r => r.pps_uid == p.pps_uid.getD "")) = true
    · simp [hany] at h
    · simp only [] at h ⊢
      rw [if_neg hany]
      apply any_ppss_after_fold _ (fun st uid => sopGetOrCreate_eq _ _)
      show ((if otruthy p.sps_uid = true then _ else _ : Store)).ppss.any _ = true
      split
      · split
        · simp [List.any_append]
        · split <;> simp [saveSPS, List.any_append]
      · simp [List.any_append]
  · rw [if_pos (by simp [htr])] at h; exact absurd h (by simp)

lemma ingest_mpps_replay (p p2 : MppsPayload) (body body2 : List Nat)
    (hdrs hdrs2 : Option (List (String × String))) (secret secret2 : Option String)
    (now now2 : String) (s : Store)
    (hid : p2.pps_uid = p.pps_uid)
    (hgate2 : (headersTruthy hdrs2 && !(verify_signature secret2 (hdrs2.getD []) body2)) = false)
    (h : (ingest_mpps p body hdrs secret now s).1 = .created "pps_uid" (p.pps_uid.getD "")) :
    ingest_mpps p2 body2 hdrs2 secret2 now2 (ingest_mpps p body hdrs secret now s).2 =
      (.exists_ "pps_uid" (p2.pps_uid.getD ""), (ingest_mpps p body hdrs secret now s).2) := by
  obtain ⟨htr, hany⟩ := ingest_mpps_presence p body hdrs secret now s h
  exact ingest_mpps_exists p2 body2 hdrs2 secret2 now2 _ hgate2
    (by rw [hid]; exact htr) (by rw [hid]; exact hany)

lemma ihe_replay (jl : String → Except String JsonPayload) (ie2 : Option String)
    (g g2 n n2 raw ct : String) (s : Store) (m m2 : NormalizedMsg)
    (hn1 : gatewayNormalize jl g raw ct = .ok m)
    (hn2 : gatewayNormalize jl g2 raw ct = .ok m2)
    (hid : m2.message_id = m.message_id)
    (hm : otruthy m.message_id = true)
    (hl : gatewayLookup m s = none) :
    ihe_receive_message jl ie2 g2 n2 raw ct (ihe_receive_message jl none g n raw ct s).2 =
      ({ status := "200", message := "Message already exists",
         data := some ⟨m.message_id.getD "", "received", m.correlation_id⟩, error := none },
       (ihe_receive_message jl none g n raw ct s).2) := by
  have hdoc_id : (gatewayDoc m g n raw).message_id = m.message_id.getD "" := by
    simp [gatewayDoc, hm]
  have hl2 : gatewayLookup m2 { s with messages := s.messages ++ [gatewayDoc m g n raw] } =
      some (gatewayDoc m g n raw) := by
    unfold gatewayLookup at hl ⊢
    rw [if_pos hm] at hl
    rw [if_pos (by rw [hid]; exact hm), hid]
    show (s.messages ++ [gatewayDoc m g n raw]).find? _ = _
    rw [find?_append_none _ _ _ hl]
    simp [List.find?, hdoc_id]
  have h1 : (ihe_receive_message jl none g n raw ct s).2 =
      { s with messages := s.messages ++ [gatewayDoc m g n raw] } :=
    congrArg Prod.snd (ihe_created jl g n raw ct s m hn1 hl)
  rw [h1]
  have h2 := ihe_found jl ie2 g2 n2 raw ct _ m2 (gatewayDoc m g n raw) hn2 hl2
  rw [hdoc_id, show (gatewayDoc m g n raw).status = "received" from rfl,
      show (gatewayDoc m g n raw).correlation_id = m.correlation_id from rfl] at h2
  exact h2

/-- C1: for every entity keyed by message_id, ian_id, pps_uid or ups_id, a
second submission of the same identifier returns the stored exists-response
(for Message: a 200 with the stored status `received` and correlation id)
and leaves the store exactly as the first call left it - no second primary
record and no further writes. -/
theorem idempotent_replay :
    (∀ (a b c d e b2 c2 d2 e2 : String) (s : Store),
      (receive_ian a b c d e s).1 = .created "ian_id" a →
      receive_ian a b2 c2 d2 e2 (receive_ian a b c d e s).2 =
        (.exists_ "ian_id" a, (receive_ian a b c d e s).2)) ∧
    (∀ (a b c d e f g b2 c2 d2 e2 f2 g2 : String) (s : Store),
      (create_pps a b c d e f g s).1 = .created "pps_uid" a →
      create_pps a b2 c2 d2 e2 f2 g2 (create_pps a b c d e f g s).2 =
        (.exists_ "pps_uid" a, (create_pps a b c d e f g s).2)) ∧
    (∀ (a b c d e f b2 c2 d2 e2 f2 : String) (s : Store),
      (create_ups a b c d e f s).1 = .created "ups_id" a →
      create_ups a b2 c2 d2 e2 f2 (create_ups a b c d e f s).2 =
        (.exists_ "ups_id" a, (create_ups a b c d e f s).2)) ∧
    (∀ (p p2 : IanPayload) (body body2 : List Nat)
      (hdrs hdrs2 : Option (List (String × String))) (secret secret2 : Option String)
      (now now2 : String) (s : Store),
      p2.ian_id = p.ian_id →
      (headersTruthy hdrs2 && !(verify_signature secret2 (hdrs2.getD []) body2)) = false →
      (ingest_ian p body hdrs secret now s).1 = .created "ian_id" (p.ian_id.getD "") →
      ingest_ian p2 body2 hdrs2 secret2 now2 (ingest_ian p body hdrs secret now s).2 =
        (.exists_ "ian_id" (p2.ian_id.getD ""), (ingest_ian p body hdrs secret now s).2)) ∧
    (∀ (p p2 : MppsPayload) (body body2 : List Nat)
      (hdrs hdrs2 : Option (List (String × String))) (secret secret2 : Option String)
      (now now2 : String) (s : Store),
      p2.pps_uid = p.pps_uid →
      (headersTruthy hdrs2 && !(verify_signature secret2 (hdrs2.getD []) body2)) = false →
      (ingest_mpps p body hdrs secret now s).1 = .created "pps_uid" (p.pps_uid.getD "") →
      ingest_mpps p2 body2 hdrs2 secret2 now2 (ingest_mpps p body hdrs secret now s).2 =
        (.exists_ "pps_uid" (p2.pps_uid.getD ""), (ingest_mpps p body hdrs secret now s).2)) ∧
    (∀ (jl : String → Except String JsonPayload) (ie2 : Option String)
      (g g2 n n2 raw ct : String) (s : Store) (m m2 : NormalizedMsg),
      gatewayNormalize jl g raw ct = .ok m →
      gatewayNormalize jl g2 raw ct = .ok m2 →
      m2.message_id = m.message_id →
      otruthy m.message_id = true →
      gatewayLookup m s = none →
      ihe_receive_message jl ie2 g2 n2 raw ct (ihe_receive_message jl none g n raw ct s).2 =
        ({ status := "200", message := "Message already exists",
           data := some ⟨m.message_id.getD "", "received", m.correlation_id⟩, error := none },
         (ihe_receive_message jl none g n raw ct s).2)) :=
  ⟨receive_ian_replay, create_pps_replay, create_ups_replay,
   ingest_ian_replay, ingest_mpps_replay, ihe_replay⟩

/-- C1 witness: replaying ian_id I1 after a successful create returns the
exists-response and leaves the store untouched. -/
theorem idempotent_replay_witness :
    receive_ian "I1" "X" "9.9" "Transferred" "t2"
        (receive_ian "I1" "AE" "1.2" "Available" "t1" emptyStore).2 =
      (.exists_ "ian_id" "I1", (receive_ian "I1" "AE" "1.2" "Available" "t1" emptyStore).2) :=
  idempotent_replay.1 "I1" "AE" "1.2" "Available" "t1" "X" "9.9" "Transferred" "t2"
    emptyStore (by decide)

/-- C9: the inbound message gateway never surfaces a fault: every call ends
in a 200 replay, a 201 create, or a 500 response carrying the error text with
the store untouched; a JSON parse failure and a store insert failure each
produce exactly the 500 response; a fresh message produces the 201 response
with status received; a replay produces the 200 response with the stored
record fields. -/
theorem gateway_error_boundary :
    (∀ (jl : String → Except String JsonPayload) (ie : Option String)
      (g n raw ct : String) (s : Store),
      ((ihe_receive_message jl ie g n raw ct s).1.status = "200" ∧
        (ihe_receive_message jl ie g n raw ct s).2 = s) ∨
      (ihe_receive_message jl ie g n raw ct s).1.status = "201" ∨
      ((ihe_receive_message jl ie g n raw ct s).1.status = "500" ∧
        (ihe_receive_message jl ie g n raw ct s).1.error.isSome = true ∧
        (ihe_receive_message jl ie g n raw ct s).2 = s)) ∧
    (∀ (jl : String → Except String JsonPayload) (ie : Option String)
      (g n raw ct e : String) (s : Store),
      gatewayNormalize jl g raw ct = .error e →
      ihe_receive_message jl ie g n raw ct s =
        ({ status := "500", message := "Failed to accept message",
           data := none, error := some e }, s)) ∧
    (∀ (jl : String → Except String JsonPayload) (g n raw ct e : String)
      (s : Store) (m : NormalizedMsg),
      gatewayNormalize jl g raw ct = .ok m → gatewayLookup m s = none →
      ihe_receive_message jl (some e) g n raw ct s =
        ({ status := "500", message := "Failed to accept message",
           data := none, error := some e }, s)) ∧
    (∀ (jl : String → Except String JsonPayload) (g n raw ct : String)
      (s : Store) (m : NormalizedMsg),
      gatewayNormalize jl g raw ct = .ok m → gatewayLookup m s = none →
      ihe_receive_message jl none g n raw ct s =
        ({ status := "201", message := "Message accepted and queued",
           data := some ⟨(gatewayDoc m g n raw).message_id, "received", m.correlation_id⟩,
           error := none },
         { s with messages := s.messages ++ [gatewayDoc m g n raw] })) ∧
    (∀ (jl : String → Except String JsonPayload) (ie : Option String)
      (g n raw ct : String) (s : Store) (m : NormalizedMsg) (mrec : MessageRec),
      gatewayNormalize jl g raw ct = .ok m → gatewayLookup m s = some mrec →
      ihe_receive_message jl ie g n raw ct s =
        ({ status := "200", message := "Message already exists",
           data := some ⟨mrec.message_id, mrec.status, mrec.correlation_id⟩,
           error := none }, s)) := by
  refine ⟨?_, ihe_norm_error, ihe_insert_error, ihe_created, ihe_found⟩
  intro jl ie g n raw ct s
  cases hn : gatewayNormalize jl g raw ct with
  | error e =>
      right; right
      rw [ihe_norm_error jl ie g n raw ct e s hn]
      exact ⟨rfl, rfl, rfl⟩
  | ok m =>
      cases hl : gatewayLookup m s with
      | some mrec =>
          left
          rw [ihe_found jl ie g n raw ct s m mrec hn hl]
          exact ⟨rfl, rfl⟩
      | none =>
          cases ie with
          | some e =>
              right; right
              rw [ihe_insert_error jl g n raw ct e s m hn hl]
              exact ⟨rfl, rfl, rfl⟩
          | none =>
              right; left
              rw [ihe_created jl g n raw ct s m hn hl]

/-- C9 witness: a json body whose parse fails yields the 500 response with
the parse error and an unchanged store. -/
theorem gateway_error_boundary_witness :
    ihe_receive_message (fun _ => .error "Expecting value") none "g" "n" "not json"
        "application/json" emptyStore =
      ({ status := "500", message := "Failed to accept message",
         data := none, error := some "Expecting value" }, emptyStore) :=
  gateway_error_boundary.2.1 (fun _ => .error "Expecting value") none "g" "n" "not json"
    "application/json" "Expecting value" emptyStore rfl

/-- C7: on creation of a Unified Procedure Step, start_time is stamped with
the current time exactly when ups_status is IN-PROGRESS, end_time exactly
when ups_status is COMPLETED, FAILED or CANCELLED, and both stay null for
every other status. -/
theorem ups_temporal_fields (ups_id rp_id ups_status actor instance_uids now : String)
    (s : Store) (hid : ups_id ≠ "")
    (hfresh : (s.upss.any (fun r => r.ups_id == ups_id)) = false) :
    (create_ups ups_id rp_id ups_status actor instance_uids now s).2.upss =
      s.upss ++ [ups_doc ups_id rp_id ups_status actor instance_uids now] ∧
    ((ups_doc ups_id rp_id ups_status actor instance_uids now).start_time = some now ↔
      ups_status = "IN-PROGRESS") ∧
    ((ups_doc ups_id rp_id ups_status actor instance_uids now).start_time = none ↔
      ups_status ≠ "IN-PROGRESS") ∧
    ((ups_doc ups_id rp_id ups_status actor instance_uids now).end_time = some now ↔
      (ups_status = "COMPLETED" ∨ ups_status = "FAILED" ∨ ups_status = "CANCELLED")) ∧
    ((ups_doc ups_id rp_id ups_status actor instance_uids now).end_time = none ↔
      ¬(ups_status = "COMPLETED" ∨ ups_status = "FAILED" ∨ ups_status = "CANCELLED")) := by
  constructor
  · unfold create_ups
    rw [if_neg (by simpa using hid), if_neg (by simp [hfresh])]
    simp only []
    split
    · obtain ⟨t, ht⟩ := storeFold_eq
        (fun st uid => sopGetOrCreate ⟨uid, none, none, none, now⟩ st)
        (fun st uid => sopGetOrCreate_eq _ _) (split_uids instance_uids)
        { s with upss := s.upss ++ [ups_doc ups_id rp_id ups_status actor instance_uids now] }
      rw [ht]
    · rfl
  refine ⟨?_, ?_, ?_, ?_⟩
  · by_cases h : ups_status = "IN-PROGRESS" <;> simp [ups_doc, h]
  · by_cases h : ups_status = "IN-PROGRESS" <;> simp [ups_doc, h]
  · by_cases h1 : ups_status = "COMPLETED"
    · simp [ups_doc, h1]
    by_cases h2 : ups_status = "FAILED"
    · simp [ups_doc, h1, h2]
    by_cases h3 : ups_status = "CANCELLED"
    · simp [ups_doc, h1, h2, h3]
    · simp [ups_doc, h1, h2, h3]
  · by_cases h1 : ups_status = "COMPLETED"
    · simp [ups_doc, h1]
    by_cases h2 : ups_status = "FAILED"
    · simp [ups_doc, h1, h2]
    by_cases h3 : ups_status = "CANCELLED"
    · simp [ups_doc, h1, h2, h3]
    · simp [ups_doc, h1, h2, h3]

/-- C7 witness: a FAILED UPS gets an end_time and no start_time. -/
theorem ups_temporal_fields_witness :
    (ups_doc "U1" "" "FAILED" "" "" "t0").start_time = none ∧
    (ups_doc "U1" "" "FAILED" "" "" "t0").end_time = some "t0" := by
  have h := ups_temporal_fields "U1" "" "FAILED" "" "" "t0" emptyStore (by decide) (by decide)
  exact ⟨h.2.2.1.mpr (by decide), h.2.2.2.1.mpr (by decide)⟩

/-- C5 counterexample: a successful UPS create with a non-empty instance UID
list and status SCHEDULED performs no SOPInstance get-or-create at all, so
the fan-out does not happen regardless of status. -/
theorem ups_scheduled_no_fanout :
    (create_ups "U1" "" "SCHEDULED" "" "1.2.3" "t0" emptyStore).1 =
      ApiResult.created "ups_id" "U1" ∧
    (create_ups "U1" "" "SCHEDULED" "" "1.2.3" "t0" emptyStore).2.sops = [] := by decide

/-- A uid that is fresh before the fold gets exactly the record built for it,
metadata included. -/
lemma storeFold_fresh (f : Store → String → Store) (mk : String → SOPInstanceRec)
    (hf : ∀ st u, f st u = sopGetOrCreate (mk u) st)
    (hmk : ∀ u, (mk u).sop_uid = u) :
    ∀ (uids : List String) (st : Store) (uid : String),
      uid ∈ uids → (st.sops.any (fun r => r.sop_uid == uid)) = false →
      mk uid ∈ (uids.foldl f st).sops
  | [], _, uid, hu, _ => absurd hu (List.not_mem_nil uid)
  | u :: rest, st, uid, hu, hfresh => by
      have hstep : ∀ (st2 : Store) (u2 : String),
          ∃ t, f st2 u2 = { st2 with sops := st2.sops ++ t } :=
        fun st2 u2 => by rw [hf st2 u2]; exact sopGetOrCreate_eq (mk u2) st2
      by_cases heq : uid = u
      · rw [heq] at hfresh ⊢
        have hmem : mk u ∈ (f st u).sops := by
          rw [hf st u]
          unfold sopGetOrCreate
          rw [if_neg (by rw [hmk]; simp [hfresh])]
          exact List.mem_append_right _ (List.mem_singleton_self _)
        obtain ⟨t, ht⟩ := storeFold_eq f hstep rest (f st u)
        show mk u ∈ (rest.foldl f (f st u)).sops
        rw [ht]
        exact List.mem_append_left _ hmem
      · have hu2 : uid ∈ rest := (List.mem_cons.mp hu).resolve_left heq
        have hfresh2 : ((f st u).sops.any (fun r => r.sop_uid == uid)) = false := by
          rw [hf st u]
          unfold sopGetOrCreate
          split
          · exact hfresh
          · rw [List.any_append]
            simp [hfresh, hmk, Ne.symm heq]
        exact storeFold_fresh f mk hf hmk rest (f st u) uid hu2 hfresh2

/-- C5 amended: each UID in the normalized UID list is get-or-created for a
successful IAN create (both endpoints) and a successful MPPS ingest
regardless of status, and for the PPS background worker, each carrying the
optional patient/accession metadata of the triggering payload where the path
supports it: a fresh uid receives, for ingest_ian, the payload source and
its patient_id/accession_number; for ingest_mpps, the payload actor and its
patient_id/accession_number; for receive_ian, the source AE title only; for
the worker, no metadata.  For UPS the fan-out runs only when ups_status is
COMPLETED (fresh uids then get a metadata-free record), and every other
status leaves the SOPInstance table untouched. -/
theorem fanout_per_uid :
    (∀ (a b c d e : String) (s : Store),
      (receive_ian a b c d e s).1 = .created "ian_id" a →
      ∀ uid ∈ split_uids c,
        (∃ r ∈ (receive_ian a b c d e s).2.sops, r.sop_uid = uid) ∧
        ((s.sops.any (fun r => r.sop_uid == uid)) = false →
          (⟨uid, some b, none, none, e⟩ : SOPInstanceRec) ∈ (receive_ian a b c d e s).2.sops)) ∧
    (∀ (p : IanPayload) (body : List Nat) (hdrs : Option (List (String × String)))
      (secret : Option String) (now : String) (s : Store),
      (ingest_ian p body hdrs secret now s).1 = .created "ian_id" (p.ian_id.getD "") →
      ∀ uid ∈ split_uids (normalize_uids (uidsOr p.sop_instance_uids p.sop_uids)),
        (∃ r ∈ (ingest_ian p body hdrs secret now s).2.sops, r.sop_uid = uid) ∧
        ((s.sops.any (fun r => r.sop_uid == uid)) = false →
          (⟨uid, p.source, p.patient_id, p.accession_number, now⟩ : SOPInstanceRec) ∈
            (ingest_ian p body hdrs secret now s).2.sops)) ∧
    (∀ (p : MppsPayload) (body : List Nat) (hdrs : Option (List (String × String)))
      (secret : Option String) (now : String) (s : Store),
      (ingest_mpps p body hdrs secret now s).1 = .created "pps_uid" (p.pps_uid.getD "") →
      ∀ uid ∈ split_uids (normalize_uids p.instance_uids),
        (∃ r ∈ (ingest_mpps p body hdrs secret now s).2.sops, r.sop_uid = uid) ∧
        ((s.sops.any (fun r => r.sop_uid == uid)) = false →
          (⟨uid, p.actor, p.patient_id, p.accession_number, now⟩ : SOPInstanceRec) ∈
            (ingest_mpps p body hdrs secret now s).2.sops)) ∧
    (∀ (pid now : String) (s : Store) (pps : PPSRec),
      s.ppss.find? (fun r => r.pps_uid == pid) = some pps →
      ∀ uid ∈ split_uids pps.instance_uids,
        (∃ r ∈ (process_pps pid now s).sops, r.sop_uid = uid) ∧
        ((s.sops.any (fun r => r.sop_uid == uid)) = false →
          (⟨uid, none, none, none, now⟩ : SOPInstanceRec) ∈ (process_pps pid now s).sops)) ∧
    (∀ (a b d e f : String) (s : Store),
      (create_ups a b "COMPLETED" d e f s).1 = .created "ups_id" a →
      ∀ uid ∈ split_uids e,
        (∃ r ∈ (create_ups a b "COMPLETED" d e f s).2.sops, r.sop_uid = uid) ∧
        ((s.sops.any (fun r => r.sop_uid == uid)) = false →
          (⟨uid, none, none, none, f⟩ : SOPInstanceRec) ∈ (create_ups a b "COMPLETED" d e f s).2.sops)) ∧
    (∀ (a b c d e f : String) (s : Store), c ≠ "COMPLETED" →
      (create_ups a b c d e f s).2.sops = s.sops) := by
  refine ⟨?_, ?_, ?_, ?_, ?_, ?_⟩
  · intro a b c d e s h uid hu
    unfold receive_ian at h ⊢
    by_cases h1 : (a == "") = true
    · rw [if_pos h1] at h; exact absurd h (by simp)
    rw [if_neg h1] at h ⊢
    by_cases h2 : (s.ians.any (fun r => r.ian_id == a)) = true
    · rw [if_pos h2] at h; exact absurd h (by simp)
    rw [if_neg h2]
    constructor
    · exact storeFold_covers _ (fun st u => sopGetOrCreate_eq _ _)
        (fun st u => sopGetOrCreate_covers ⟨u, some b, none, none, e⟩ st) _ _ uid hu
    · intro hfresh
      exact storeFold_fresh _ (fun u => ⟨u, some b, none, none, e⟩)
        (fun _ _ => rfl) (fun _ => rfl) _ _ uid hu hfresh
  · intro p body hdrs secret now s h uid hu
    unfold ingest_ian at h ⊢
    by_cases hg : (headersTruthy hdrs && !(verify_signature secret (hdrs.getD []) body)) = true
    · rw [if_pos hg] at h; exact absurd h (by simp)
    rw [if_neg hg] at h ⊢
    by_cases htr : (otruthy p.ian_id) = true
    · rw [if_neg (by simp [htr])] at h ⊢
      by_cases hany : (s.ians.any (fun r => r.ian_id == p.ian_id.getD "")) = true
      · simp [hany] at h
      · simp only [] at h ⊢
        rw [if_neg hany]
        constructor
        · exact storeFold_covers _ (fun st u => sopGetOrCreate_eq _ _)
            (fun st u => sopGetOrCreate_covers ⟨u, p.source, p.patient_id, p.accession_number, now⟩ st)
            _ _ uid hu
        · intro hfresh
          exact storeFold_fresh _
            (fun u => ⟨u, p.source, p.patient_id, p.accession_number, now⟩)
            (fun _ _ => rfl) (fun _ => rfl) _ _ uid hu hfresh
    · rw [if_pos (by simp [htr])] at h; exact absurd h (by simp)
  · intro p body hdrs secret now s h uid hu
    unfold ingest_mpps at h ⊢
    by_cases hg : (headersTruthy hdrs && !(verify_signature secret (hdrs.getD []) body)) = true
    · rw [if_pos hg] at h; exact absurd h (by simp)
    rw [if_neg hg] at h ⊢
    by_cases htr : (otruthy p.pps_uid) = true
    · rw [if_neg (by simp [htr])] at h ⊢
      by_cases hany : (s.ppss.any (fun r => r.pps_uid == p.pps_uid.getD "")) = true
      · simp [hany] at h
      · simp only [] at h ⊢
        rw [if_neg hany]
        constructor
        · exact storeFold_covers _ (fun st u => sopGetOrCreate_eq _ _)
            (fun st u => sopGetOrCreate_covers ⟨u, p.actor, p.patient_id, p.accession_number, now⟩ st)
            _ _ uid hu
        · intro hfresh
          refine storeFold_fresh _
            (fun u => ⟨u, p.actor, p.patient_id, p.accession_number, now⟩)
            (fun _ _ => rfl) (fun _ => rfl) _ _ uid hu ?_
          show ((if otruthy p.sps_uid = true then _ else _ : Store)).sops.any _ = false
          split
          · split
            · exact hfresh
            · split
              · exact hfresh
              · exact hfresh
          · exact hfresh
    · rw [if_pos (by simp [htr])] at h; exact absurd h (by simp)
  · intro pid now s pps hfp uid hu
    unfold process_pps
    rw [hfp]
    constructor
    · exact storeFold_covers _ (fun st u => sopGetOrCreate_eq _ _)
        (fun st u => sopGetOrCreate_covers ⟨u, none, none, none, now⟩ st) _ _ uid hu
    · intro hfresh
      refine storeFold_fresh _ (fun u => ⟨u, none, none, none, now⟩)
        (fun _ _ => rfl) (fun _ => rfl) _ _ uid hu ?_
      show ((if pps.sps ≠ "" then _ else _ : Store)).sops.any _ = false
      split
      · split
        · exact hfresh
        · exact hfresh
      · exact hfresh
  · intro a b d e f s h uid hu
    unfold create_ups at h ⊢
    by_cases h1 : (a == "") = true
    · rw [if_pos h1] at h; exact absurd h (by simp)
    rw [if_neg h1] at h ⊢
    by_cases h2 : (s.upss.any (fun r => r.ups_id == a)) = true
    · rw [if_pos h2] at h; exact absurd h (by simp)
    rw [if_neg h2]
    simp only []
    by_cases h3 : e = ""
    · subst h3
      have hsplit : split_uids "" = [] := by decide
      rw [hsplit] at hu
      exact absurd hu (List.not_mem_nil uid)
    · rw [if_pos (by simp [h3])]
      constructor
      · exact storeFold_covers _ (fun st u => sopGetOrCreate_eq _ _)
          (fun st u => sopGetOrCreate_covers ⟨u, none, none, none, f⟩ st) _ _ uid hu
      · intro hfresh
        exact storeFold_fresh _ (fun u => ⟨u, none, none, none, f⟩)
          (fun _ _ => rfl) (fun _ => rfl) _ _ uid hu hfresh
  · intro a b c d e f s hc
    unfold create_ups
    split
    · rfl
    split
    · rfl
    · simp only []
      rw [if_neg (by simp [hc])]

/-- C5 amended witness: ingesting a SCHEDULED MPPS with uid 1.2 creates the
SOPInstance carrying the payload actor, patient and accession metadata. -/
theorem fanout_per_uid_witness :
    (⟨"1.2", some "CT1", some "PAT1", some "ACC1", "t1"⟩ : SOPInstanceRec) ∈
      (ingest_mpps ⟨some "P1", none, none, some "CT1", some "SCHEDULED",
          .list ["1.2"], some "PAT1", some "ACC1", none⟩
        [] none none "t1" emptyStore).2.sops :=
  (fanout_per_uid.2.2.1 ⟨some "P1", none, none, some "CT1", some "SCHEDULED",
      .list ["1.2"], some "PAT1", some "ACC1", none⟩
    [] none none "t1" emptyStore (by decide) "1.2" (by decide)).2 (by decide)

lemma spss_after_fold (f : Store → String → Store)
    (hstep : ∀ st uid, ∃ t, f st uid = { st with sops := st.sops ++ t })
    (L : List String) (s2 : Store) :
    (L.foldl f s2).spss = s2.spss ∧ (L.foldl f s2).spsSaves = s2.spsSaves := by
  obtain ⟨t, ht⟩ := storeFold_eq f hstep L s2
  rw [ht]
  exact ⟨rfl, rfl⟩

/-- C6 counterexample: the background worker saves an already-Completed SPS.
The store holds a COMPLETED PPS referencing SPS S1 whose status is already
Completed, yet processing performs one save of the SPS. -/
theorem process_pps_saves_completed_sps :
    (process_pps "P1" "t2"
      { emptyStore with
        ppss := [⟨"P1", "S1", "", "", "COMPLETED", "", "t1"⟩],
        spss := [⟨"S1", "Completed"⟩] }).spsSaves = 1 := by decide

/-- C6 amended: `ingest_mpps` sets a referenced existing SPS to Completed and
saves it only when its status is not already Completed, and performs no save
otherwise; `_process_pps` saves the referenced existing SPS unconditionally -
also when it is already Completed - and sets the status to Completed only
when the PPS status is COMPLETED. -/
theorem sps_cross_update :
    (∀ (p : MppsPayload) (body : List Nat) (hdrs : Option (List (String × String)))
      (secret : Option String) (now : String) (s : Store) (spsRec : SPSRec),
      (headersTruthy hdrs && !(verify_signature secret (hdrs.getD []) body)) = false →
      otruthy p.pps_uid = true →
      (s.ppss.any (fun r => r.pps_uid == p.pps_uid.getD "")) = false →
      otruthy p.sps_uid = true →
      s.spss.find? (fun r => r.sps_uid == p.sps_uid.getD "") = some spsRec →
      ((spsRec.status ≠ "Completed" →
        (ingest_mpps p body hdrs secret now s).2.spss =
          s.spss.map (fun r => if r.sps_uid == spsRec.sps_uid then
            { spsRec with status := "Completed" } else r) ∧
        (ingest_mpps p body hdrs secret now s).2.spsSaves = s.spsSaves + 1) ∧
       (spsRec.status = "Completed" →
        (ingest_mpps p body hdrs secret now s).2.spss = s.spss ∧
        (ingest_mpps p body hdrs secret now s).2.spsSaves = s.spsSaves))) ∧
    (∀ (pid now : String) (s : Store) (pps : PPSRec) (spsRec : SPSRec),
      s.ppss.find? (fun r => r.pps_uid == pid) = some pps →
      pps.sps ≠ "" →
      s.spss.find? (fun r => r.sps_uid == pps.sps) = some spsRec →
      (process_pps pid now s).spsSaves = s.spsSaves + 1 ∧
      (process_pps pid now s).spss =
        s.spss.map (fun r => if r.sps_uid == spsRec.sps_uid then
          { spsRec with status := if pps.status == "COMPLETED" then "Completed"
                                  else spsRec.status } else r)) := by
  constructor
  · intro p body hdrs secret now s spsRec hgate htr hfresh hsps hfind
    unfold ingest_mpps
    rw [if_neg (by simp [hgate]), if_neg (by simp [htr])]
    simp only []
    rw [if_neg (by simp [hfresh]), if_pos hsps, hfind]
    simp only []
    constructor
    · intro hne
      rw [if_pos hne]
      have hf := spss_after_fold
        (fun st uid => get_or_create_sopinstance uid p.actor p.patient_id p.accession_number now st)
        (fun st uid => sopGetOrCreate_eq _ _) (split_uids (normalize_uids p.instance_uids))
        (saveSPS { s with ppss := s.ppss ++ [⟨p.pps_uid.getD "", p.sps_uid.getD "",
            p.rp_id.getD "", p.actor.getD "", p.status.getD "COMPLETED",
            normalize_uids p.instance_uids,
            if otruthy p.created_at = true then p.created_at.getD "" else now⟩] }
          { spsRec with status := "Completed" })
      exact ⟨hf.1, hf.2⟩
    · intro heq
      rw [if_neg (by simp [heq])]
      have hf := spss_after_fold
        (fun st uid => get_or_create_sopinstance uid p.actor p.patient_id p.accession_number now st)
        (fun st uid => sopGetOrCreate_eq _ _) (split_uids (normalize_uids p.instance_uids))
        { s with ppss := s.ppss ++ [⟨p.pps_uid.getD "", p.sps_uid.getD "",
            p.rp_id.getD "", p.actor.getD "", p.status.getD "COMPLETED",
            normalize_uids p.instance_uids,
            if otruthy p.created_at = true then p.created_at.getD "" else now⟩] }
      exact ⟨hf.1, hf.2⟩
  · intro pid now s pps spsRec hfindp hspsne hfind2
    unfold process_pps
    rw [hfindp]
    simp only []
    rw [if_pos hspsne, hfind2]
    simp only []
    have hf := spss_after_fold
      (fun st uid => sopGetOrCreate ⟨uid, none, none, none, now⟩ st)
      (fun st uid => sopGetOrCreate_eq _ _) (split_uids pps.instance_uids)
      (saveSPS s { spsRec with
        status := if pps.status == "COMPLETED" then "Completed" else spsRec.status })
    exact ⟨hf.2, hf.1⟩

/-- C6 amended witness: an MPPS referencing a Scheduled SPS completes it with
one save. -/
theorem sps_cross_update_witness :
    (ingest_mpps ⟨some "P1", some "S1", none, none, some "COMPLETED", .none_, none, none, none⟩
      [] none none "t1"
      { emptyStore with spss := [⟨"S1", "Scheduled"⟩] }).2.spss = [⟨"S1", "Completed"⟩] ∧
    (ingest_mpps ⟨some "P1", some "S1", none, none, some "COMPLETED", .none_, none, none, none⟩
      [] none none "t1"
      { emptyStore with spss := [⟨"S1", "Scheduled"⟩] }).2.spsSaves = 1 := by
  have h := ((sps_cross_update.1
    ⟨some "P1", some "S1", none, none, some "COMPLETED", .none_, none, none, none⟩
    [] none none "t1" { emptyStore with spss := [⟨"S1", "Scheduled"⟩] }
    ⟨"S1", "Scheduled"⟩ (by decide) (by decide) (by decide) (by decide) (by decide)).1
    (by decide))
  exact ⟨h.1.trans (by decide), h.2.trans (by decide)⟩

/-- Characterization of the verifier under a configured secret. -/
lemma verify_iff (sec : String) (headers : List (String × String)) (body : List Nat)
    (hsec : sec ≠ "") :
    verify_signature (some sec) headers body = true ↔
      ∃ v, pyOr (hget headers "X-Signature") (hget headers "X-Hub-Signature") = some v ∧
        v ≠ "" ∧
        (if charLeads "sha256=".data v.data then String.mk (v.data.drop 7) else v) =
          hmacSha256Hex (strBytes sec) body := by
  unfold verify_signature
  rw [if_neg (by simp [otruthy, hsec])]
  cases hpy : pyOr (hget headers "X-Signature") (hget headers "X-Hub-Signature") with
  | none => simp
  | some sh =>
      by_cases hraw : sh = ""
      · subst hraw
        simp
      · simp only []
        rw [if_neg (by simpa using hraw)]
        constructor
        · intro h
          rw [beq_iff_eq] at h
          exact ⟨sh, rfl, hraw, h.symm⟩
        · rintro ⟨v, hv, hv2, hv3⟩
          cases hv
          rw [hv3]
          simp

/-- C3: with no configured secret (or an empty one) every request passes;
with a secret configured, verification succeeds exactly when an X-Signature
or X-Hub-Signature header carries (optionally sha256=-prefixed) the
HMAC-SHA256 hex digest of the body under the secret; a missing header fails;
and whenever the digests of two bodies differ, a signature valid for the
first fails for the second. -/
theorem verify_signature_spec :
    (∀ (headers : List (String × String)) (body : List Nat),
      verify_signature none headers body = true) ∧
    (∀ (headers : List (String × String)) (body : List Nat),
      verify_signature (some "") headers body = true) ∧
    (∀ (sec : String) (headers : List (String × String)) (body : List Nat), sec ≠ "" →
      (verify_signature (some sec) headers body = true ↔
        ∃ v, pyOr (hget headers "X-Signature") (hget headers "X-Hub-Signature") = some v ∧
          v ≠ "" ∧
          (if charLeads "sha256=".data v.data then String.mk (v.data.drop 7) else v) =
            hmacSha256Hex (strBytes sec) body)) ∧
    (∀ (sec : String) (headers : List (String × String)) (body : List Nat), sec ≠ "" →
      hget headers "X-Signature" = none → hget headers "X-Hub-Signature" = none →
      verify_signature (some sec) headers body = false) ∧
    (∀ (sec : String) (headers : List (String × String)) (body body2 : List Nat), sec ≠ "" →
      hmacSha256Hex (strBytes sec) body ≠ hmacSha256Hex (strBytes sec) body2 →
      verify_signature (some sec) headers body = true →
      verify_signature (some sec) headers body2 = false) := by
  refine ⟨fun _ _ => rfl, fun _ _ => rfl, verify_iff, ?_, ?_⟩
  · intro sec headers body hsec h1 h2
    unfold verify_signature
    rw [if_neg (by simp [otruthy, hsec])]
    rw [show pyOr (hget headers "X-Signature") (hget headers "X-Hub-Signature") = none by
      rw [h1, h2]; rfl]
  · intro sec headers body body2 hsec hne hv
    cases hb2 : verify_signature (some sec) headers body2 with
    | false => rfl
    | true =>
        obtain ⟨v, hpv, hvne, hstr⟩ := (verify_iff sec headers body hsec).mp hv
        obtain ⟨v2, hpv2, hvne2, hstr2⟩ := (verify_iff sec headers body2 hsec).mp hb2
        rw [hpv] at hpv2
        cases hpv2
        exact absurd (hstr.symm.trans hstr2) hne

/-- C3 witness: a correctly signed body verifies, and flipping one body byte
(ab versus bb) makes the same signature fail. -/
theorem verify_signature_spec_witness :
    verify_signature (some "k")
      [("X-Signature", "sha256=" ++ hmacSha256Hex (strBytes "k") (strBytes "ab"))]
      (strBytes "ab") = true ∧
    verify_signature (some "k")
      [("X-Signature", "sha256=" ++ hmacSha256Hex (strBytes "k") (strBytes "ab"))]
      (strBytes "bb") = false := by
  have h1 : verify_signature (some "k")
      [("X-Signature", "sha256=" ++ hmacSha256Hex (strBytes "k") (strBytes "ab"))]
      (strBytes "ab") = true :=
    (verify_signature_spec.2.2.1 "k" _ _ (by decide)).mpr
      ⟨"sha256=" ++ hmacSha256Hex (strBytes "k") (strBytes "ab"), rfl, by decide, by
        rw [if_pos (by decide)]
        rfl⟩
  exact ⟨h1, verify_signature_spec.2.2.2.2 "k" _ (strBytes "ab") (strBytes "bb")
    (by decide) (by decide) h1⟩

/-- C10: passing no request headers (None or an empty dict) bypasses
signature verification entirely - even with a secret configured, ingest_ian
and ingest_mpps never reject such a call as forbidden, although the verifier
itself rejects an empty header set under a configured secret; and the
guest-whitelisted receive_ian, create_pps and create_ups endpoints never
return a forbidden result at all. -/
theorem missing_headers_bypass_auth :
    (∀ (p : IanPayload) (body : List Nat) (secret : Option String) (now : String) (s : Store),
      isForbidden (ingest_ian p body none secret now s).1 = false) ∧
    (∀ (p : IanPayload) (body : List Nat) (secret : Option String) (now : String) (s : Store),
      isForbidden (ingest_ian p body (some []) secret now s).1 = false) ∧
    (∀ (p : MppsPayload) (body : List Nat) (secret : Option String) (now : String) (s : Store),
      isForbidden (ingest_mpps p body none secret now s).1 = false) ∧
    (∀ (p : MppsPayload) (body : List Nat) (secret : Option String) (now : String) (s : Store),
      isForbidden (ingest_mpps p body (some []) secret now s).1 = false) ∧
    (∀ (sec : String) (body : List Nat), sec ≠ "" →
      verify_signature (some sec) [] body = false) ∧
    (∀ (a b c d e : String) (s : Store), isForbidden (receive_ian a b c d e s).1 = false) ∧
    (∀ (a b c d e f g : String) (s : Store), isForbidden (create_pps a b c d e f g s).1 = false) ∧
    (∀ (a b c d e f : String) (s : Store), isForbidden (create_ups a b c d e f s).1 = false) := by
  refine ⟨?_, ?_, ?_, ?_, ?_, ?_, ?_, ?_⟩
  · intro p body secret now s
    unfold ingest_ian
    rw [if_neg (by simp [headersTruthy])]
    split
    · rfl
    · simp only []
      split
      · rfl
      · rfl
  · intro p body secret now s
    unfold ingest_ian
    rw [if_neg (by simp [headersTruthy])]
    split
    · rfl
    · simp only []
      split
      · rfl
      · rfl
  · intro p body secret now s
    unfold ingest_mpps
    rw [if_neg (by simp [headersTruthy])]
    split
    · rfl
    · simp only []
      split
      · rfl
      · rfl
  · intro p body secret now s
    unfold ingest_mpps
    rw [if_neg (by simp [headersTruthy])]
    split
    · rfl
    · simp only []
      split
      · rfl
      · rfl
  · intro sec body hsec
    unfold verify_signature
    rw [if_neg (by simp [otruthy, hsec])]
    rfl
  · intro a b c d e s
    unfold receive_ian
    split
    · rfl
    split
    · rfl
    · rfl
  · intro a b c d e f g s
    unfold create_pps
    split
    · rfl
    split
    · rfl
    · rfl
  · intro a b c d e f s
    unfold create_ups
    split
    · rfl
    split
    · rfl
    · rfl

/-- C10 witness: with secret k configured, the verifier rejects an empty
header set, yet that configuration is never exercised when headers are
absent. -/
theorem missing_headers_bypass_auth_witness :
    verify_signature (some "k") [] [] = false :=
  missing_headers_bypass_auth.2.2.2.2.1 "k" [] (by decide)

/-- The sample HL7 v2.5.1 ORM message of the specification. -/
def sampleHL7 : String :=
  "MSH|^~\\&|SendingApp|SendingFac|ReceivingApp|ReceivingFac|202511121130||ORM^O01|MSG00001|P|2.5.1\r" ++
  "PID|1||123456^^^Hospital^MR||Doe^John||19800101|M\r" ++
  "PV1|1|I|W^389^1^A||||1234^Physician^Primary|||||||||||\r" ++
  "ORC|NW|ORD448||OC456|CM||||202511121130|||1234^Clinician\r" ++
  "OBR|1|ORD448||TEST^Test Order^L|||||||||||||||||1234^Clinician\r" ++
  "NTE|1||Sample order note"

/-- C2: evaluation of the fallback normalizer on the sample message.  The
message id, type, actors match the claim, but the correlation id is the
first ORC field at split index 1 - the order control code NW - not ORD448,
contradicting the repository unit test and the docstring that prefer ORC-2. -/
theorem hl7_sample_fallback_eval :
    normalize_hl7_v2 "GENHASH" sampleHL7 =
      { message_id := some "MSG00001", message_type := some "ORM^O01",
        payload := some sampleHL7,
        source_actor := some "SendingApp|SendingFac",
        destination_actor := some "ReceivingApp|ReceivingFac",
        correlation_id := some "NW" } ∧
    (normalize_hl7_v2 "GENHASH" sampleHL7).correlation_id ≠ some "ORD448" :=
  ⟨by decide, by decide⟩

/-- C8 counterexample: with no ORC segment and a PID segment of exactly three
split fields, the fallback parser leaves the correlation id null - the
claimed fall back to PID index 2 never happens (that expression is
unreachable). -/
theorem pid_short_no_index2_fallback :
    (normalize_hl7_v2 "G" "MSH|^~\\&|A\rPID|a|b").correlation_id = none ∧
    (normalize_hl7_v2 "G" "MSH|^~\\&|A\rPID|a|b").correlation_id ≠ some "b" :=
  ⟨by decide, by decide⟩

/-- Appending a segment does not move the first occurrence of a name that is
already present. -/
lemma firstNamed_append (segs : List (List String)) (extra : List String) (name : String)
    (h : ∃ p ∈ segs, p.headD "" = name) :
    firstNamed (segs ++ [extra]) name = firstNamed segs name := by
  unfold firstNamed
  rw [List.filter_append]
  cases hf : segs.filter (fun p => p.headD "" == name) with
  | nil =>
      exfalso
      obtain ⟨p, hp, hp2⟩ := h
      have hmem : p ∈ segs.filter (fun q => q.headD "" == name) :=
        List.mem_filter.mpr ⟨hp, by simpa using hp2⟩
      rw [hf] at hmem
      exact absurd hmem (List.not_mem_nil p)
  | cons a l => simp

/-- C8 amended: the fallback parser consults only the first occurrence of
MSH, ORC and PID (appending further segments changes nothing once each is
present); MSH fields are read at split indices 8 (type), 9 (id) and 2/3/4/5
(actors); the correlation id is the first ORC segment field at index 1 when
that segment has at least two fields; with no such ORC segment, the PID
fallback reads field index 3 when the PID segment has more than three
fields, and otherwise the correlation id is null - the index 2 expression of
the source is unreachable. -/
theorem fallback_parser_fields :
    (∀ (g : String) (segs : List (List String)) (extra : List String),
      (∃ p ∈ segs, p.headD "" = "MSH") → (∃ p ∈ segs, p.headD "" = "ORC") →
      (∃ p ∈ segs, p.headD "" = "PID") →
      extractFallback g (segs ++ [extra]) = extractFallback g segs) ∧
    (∀ (g e2 sa sf ra rf dt tc mt mid pr ver : String) (rest : List (List String)),
      mt ≠ "" → mid ≠ "" →
      (extractFallback g (["MSH", e2, sa, sf, ra, rf, dt, tc, mt, mid, pr, ver] :: rest)).message_type = some mt ∧
      (extractFallback g (["MSH", e2, sa, sf, ra, rf, dt, tc, mt, mid, pr, ver] :: rest)).message_id = some mid ∧
      (extractFallback g (["MSH", e2, sa, sf, ra, rf, dt, tc, mt, mid, pr, ver] :: rest)).source_actor = combine (some sa) (some sf) ∧
      (extractFallback g (["MSH", e2, sa, sf, ra, rf, dt, tc, mt, mid, pr, ver] :: rest)).destination_actor = combine (some ra) (some rf)) ∧
    (∀ (g o1 : String) (os : List String) (segs : List (List String)),
      firstNamed segs "ORC" = some ("ORC" :: o1 :: os) →
      (extractFallback g segs).correlation_id = some o1) ∧
    (∀ (g p1 p2 p3 : String) (ps : List String) (segs : List (List String)),
      firstNamed segs "ORC" = none →
      firstNamed segs "PID" = some ("PID" :: p1 :: p2 :: p3 :: ps) →
      (extractFallback g segs).correlation_id = some p3) ∧
    (∀ (g : String) (pid0 : List String) (segs : List (List String)),
      firstNamed segs "ORC" = none →
      firstNamed segs "PID" = some pid0 → pid0.length ≤ 3 →
      (extractFallback g segs).correlation_id = none) := by
  refine ⟨?_, ?_, ?_, ?_, ?_⟩
  · intro g segs extra hm ho hp
    simp only [extractFallback, firstNamed_append segs extra "MSH" hm,
      firstNamed_append segs extra "ORC" ho, firstNamed_append segs extra "PID" hp]
  · intro g e2 sa sf ra rf dt tc mt mid pr ver rest hmt hmid
    refine ⟨?_, ?_, ?_, ?_⟩ <;>
      simp [extractFallback, firstNamed, List.filter_cons, otruthy, hmt, hmid]
  · intro g o1 os segs hF
    simp [extractFallback, hF]
  · intro g p1 p2 p3 ps segs hO hP
    simp [extractFallback, hO, hP]
  · intro g pid0 segs hO hP hlen
    have hgt : ¬ pid0.length > 3 := by omega
    simp [extractFallback, hO, hP, hgt]

/-- C8 amended witness: the correlation id really is ORC field index 1 - the
order control code - and a three-field PID yields no correlation id. -/
theorem fallback_parser_fields_witness :
    (extractFallback "G" [["ORC", "NW", "ORD448"]]).correlation_id = some "NW" ∧
    (extractFallback "G" [["MSH", "^~\\&"], ["PID", "a", "b"]]).correlation_id = none := by
  constructor
  · exact fallback_parser_fields.2.2.1 "G" "NW" ["ORD448"] [["ORC", "NW", "ORD448"]] (by decide)
  · exact fallback_parser_fields.2.2.2.2 "G" ["PID", "a", "b"]
      [["MSH", "^~\\&"], ["PID", "a", "b"]] (by decide) (by decide) (by decide)
